import Mathlib

/-!
# LocalSimulationVolume: a shallow embedding

Source embedded here:
`Plugins/LocalPhysics/Source/LocalPhysics/Private/LocalSimulationVolume.cpp`.

Embedded member functions of `ALocalSimulationVolume`: the constructor (`construct`),
`GetDataForStaticMesh`, `GetDataForJoint`, `IsInSimulation`, `GetConstraintProfile`,
`AddStaticMeshToSimulation`, `RemoveStaticMeshFromSimulation`,
`AddConstraintToStaticMeshes`, `RemoveConstraintFromStaticMeshes`, `RemoveJoints`,
`RemoveMeshData`, `AddMeshData`, `DeferredRemoval`, `DeferredAddition`, `UpdateMeshVisuals`,
`UpdatePhysics`, `SimulatePhysics`, `Update`. Not embedded: the destructor, `BeginPlay`,
`EndPlay` and `TransformUpdated`, which only release the volume, register callbacks or
write transforms.

Conventions of the embedding.

* A C++ pointer to a heap record is a natural number indexing an arena (`bodyArena`,
  `jointArena`, `handleArena`, the host's `Meshes`); `new` appends a cell to the arena and
  returns its index, so a fresh pointer never aliases an older one. `nullptr` is `none`.
  `delete p` is logged in `deletedBodies` / `deletedJoints`; the cell keeps its last content.
* The visual handed to a request is a non-null component pointer.
* `TArray<T*>` is a `List Nat`: `Add` appends at the end, `Contains` is membership, `Remove`
  erases every occurrence, `Empty` yields `[]`.
* A member function is a function from the volume state to a result and a new state. Where
  a drain or `AddConstraintToStaticMeshes` dereferences a null or unallocated pointer the
  embedding returns `none`; a lookup loop treats an unallocated pointer as a record that
  matches nothing.
* The body counters are mathematical integers; no claim depends on their width.
* Vectors and rotations are taken over an arbitrary commutative ring (the volume state
  itself carries rationals), in place of the engine's single-precision floats.
* `FTransform` values (body placement) are not carried: no definition below branches on
  one, and every engine call that only moves a body is left out of the state.
-/

namespace LocalSimulation

/-! ## Vectors and rotations -/

/-- Engine vector `FVector`, over exact scalars. -/
structure FVector (R : Type) where
  X : R
  Y : R
  Z : R
  deriving DecidableEq, Repr

namespace FVector

variable {R : Type} [CommRing R]

/-- Component-wise sum, `operator+`. -/
def add (A B : FVector R) : FVector R :=
  ⟨A.X + B.X, A.Y + B.Y, A.Z + B.Z⟩

/-- Scaling by a scalar, `operator*`. -/
def scale (k : R) (A : FVector R) : FVector R :=
  ⟨k * A.X, k * A.Y, k * A.Z⟩

/-- Cross product, `FVector::CrossProduct`. -/
def CrossProduct (A B : FVector R) : FVector R :=
  ⟨A.Y * B.Z - A.Z * B.Y, A.Z * B.X - A.X * B.Z, A.X * B.Y - A.Y * B.X⟩

end FVector

/-- Engine quaternion `FQuat`, the type of `ComponentToWorld.GetRotation()`. -/
structure FQuat (R : Type) where
  X : R
  Y : R
  Z : R
  W : R
  deriving DecidableEq, Repr

namespace FQuat

variable {R : Type} [CommRing R]

/-- Squared norm of the quaternion; a rotation has squared norm one. -/
def SizeSquared (Q : FQuat R) : R :=
  Q.X * Q.X + Q.Y * Q.Y + Q.Z * Q.Z + Q.W * Q.W

/-- Modelled from the spec: the engine's `FQuat::RotateVector` (the host frame rotation of
  section 4.2), computed as `V + W * T + Q x T` with `T = 2 * (Q x V)`. -/
def RotateVector (Q : FQuat R) (V : FVector R) : FVector R :=
  let q : FVector R := ⟨Q.X, Q.Y, Q.Z⟩
  let T := FVector.scale 2 (FVector.CrossProduct q V)
  FVector.add (FVector.add V (FVector.scale Q.W T)) (FVector.CrossProduct q T)

/-- Modelled from the spec: the engine's `FQuat::UnrotateVector`, the same formula on the
  conjugate quaternion. -/
def UnrotateVector (Q : FQuat R) (V : FVector R) : FVector R :=
  let q : FVector R := ⟨-Q.X, -Q.Y, -Q.Z⟩
  let T := FVector.scale 2 (FVector.CrossProduct q V)
  FVector.add (FVector.add V (FVector.scale Q.W T)) (FVector.CrossProduct q T)

end FQuat

/-- Engine rotator `FRotator` (the type returned by `GetActorRotation()` and stored in
  `LocalRotation`), carried by the sines and cosines of its pitch, yaw and roll: these are
  the only way the angles enter `RotateVector` and `UnrotateVector`. -/
structure FRotator (R : Type) where
  SP : R
  CP : R
  SY : R
  CY : R
  SR : R
  CR : R
  deriving DecidableEq, Repr

/-- Engine matrix restricted to its rotation block, `M[i][j]` for `i, j < 3`. -/
structure FRotationMatrix (R : Type) where
  M00 : R
  M01 : R
  M02 : R
  M10 : R
  M11 : R
  M12 : R
  M20 : R
  M21 : R
  M22 : R
  deriving DecidableEq, Repr

namespace FRotationMatrix

variable {R : Type} [CommRing R]

/-- Transposed matrix, `FMatrix::GetTransposed`. -/
def GetTransposed (m : FRotationMatrix R) : FRotationMatrix R :=
  ⟨m.M00, m.M10, m.M20, m.M01, m.M11, m.M21, m.M02, m.M12, m.M22⟩

/-- Row-vector product `V * M`, `FMatrix::TransformVector`. -/
def TransformVector (m : FRotationMatrix R) (V : FVector R) : FVector R :=
  ⟨V.X * m.M00 + V.Y * m.M10 + V.Z * m.M20,
   V.X * m.M01 + V.Y * m.M11 + V.Z * m.M21,
   V.X * m.M02 + V.Y * m.M12 + V.Z * m.M22⟩

end FRotationMatrix

namespace FRotator

variable {R : Type} [CommRing R]

/-- The three angle pairs are sines and cosines of actual angles. -/
def IsExact (L : FRotator R) : Prop :=
  L.SP * L.SP + L.CP * L.CP = 1 ∧ L.SY * L.SY + L.CY * L.CY = 1 ∧
    L.SR * L.SR + L.CR * L.CR = 1

/-- Modelled from the spec: the engine's rotation matrix of a rotator
  (`FRotationMatrix(Rot)`), by which the local-rotation override acts. -/
def Matrix (L : FRotator R) : FRotationMatrix R :=
  { M00 := L.CP * L.CY
    M01 := L.CP * L.SY
    M02 := L.SP
    M10 := L.SR * L.SP * L.CY - L.CR * L.SY
    M11 := L.SR * L.SP * L.SY + L.CR * L.CY
    M12 := -L.SR * L.CP
    M20 := -(L.CR * L.SP * L.CY + L.SR * L.SY)
    M21 := L.CY * L.SR - L.CR * L.SP * L.SY
    M22 := L.CR * L.CP }

/-- Modelled from the spec: the engine's `FRotator::RotateVector`. -/
def RotateVector (L : FRotator R) (V : FVector R) : FVector R :=
  (Matrix L).TransformVector V

/-- Modelled from the spec: the engine's `FRotator::UnrotateVector`. -/
def UnrotateVector (L : FRotator R) (V : FVector R) : FVector R :=
  (Matrix L).GetTransposed.TransformVector V

end FRotator

/-- World-to-local velocity conversion of `AddMeshData` (Dynamic branch):
  `LocalRotation.RotateVector(ComponentToWorld.GetRotation().UnrotateVector(V))`. -/
def worldToLocalVelocity {R : Type} [CommRing R] (F : FQuat R) (L : FRotator R)
    (V : FVector R) : FVector R :=
  L.RotateVector (F.UnrotateVector V)

/-- Local-to-world velocity conversion of `RemoveMeshData` (Dynamic branch):
  `ComponentToWorld.GetRotation().RotateVector(LocalRotation.UnrotateVector(V))`. -/
def localToWorldVelocity {R : Type} [CommRing R] (F : FQuat R) (L : FRotator R)
    (V : FVector R) : FVector R :=
  F.RotateVector (L.UnrotateVector V)

/-! ## Constraint profiles -/

/-- `ALocalSimulationVolume::GetConstraintProfile`: `Index` is clamped below by zero; an
  index inside `ConstraintProfiles` selects that profile, any other the default-constructed
  `FConstraintInstance()`. The profile type is a parameter `P` whose `default` stands for
  `FConstraintInstance()`. -/
def GetConstraintProfile {P : Type} [Inhabited P] (ConstraintProfiles : List P)
    (Index : Int) : P :=
  let Index := max 0 Index
  if Index < (ConstraintProfiles.length : Int) then
    ConstraintProfiles.getD Index.toNat default
  else
    default

/-! ## Host world

The engine objects the volume talks to. Only what the volume reads or writes is kept. -/

/-- Engine enumeration `EComponentMobility`. -/
inductive EComponentMobility
  | Static
  | Stationary
  | Movable
  deriving DecidableEq, Repr

/-- Body classification `ELocalPhysicsBodyType`. -/
inductive ELocalPhysicsBodyType
  | Static
  | Kinematic
  | Dynamic
  deriving DecidableEq, Repr

/-- Modelled from the spec: the host visual and its body instance (section 6, "host world
  simulation" and "host rigid-body descriptor source"): mobility, the simulate-physics
  flags, the native rigid-body descriptors (absent when unusable) and the world-space
  velocities of its body, as `GetPhysicsLinearVelocity` / `GetPhysicsAngularVelocity` report
  them (zero once the body is terminated, zero again for a newly initialised body). -/
structure UStaticMeshComponent where
  Mobility : EComponentMobility
  bSimulatePhysics : Bool
  bIsSimulatingPhysics : Bool
  PxRigidBody : Option Nat
  PxRigidDynamic : Option Nat
  BodySetup : Nat
  LinearVelocity : FVector ℚ
  AngularVelocity : FVector ℚ
  StaticMesh : Option Nat
  bHiddenInGame : Bool
  bRegistered : Bool
  TransformUpdatedBindings : Nat
  deriving DecidableEq, Repr

namespace UStaticMeshComponent

/-- Modelled from the spec: a component as `NewObject<UStaticMeshComponent>` leaves it. -/
def NewObject : UStaticMeshComponent :=
  { Mobility := .Movable
    bSimulatePhysics := false
    bIsSimulatingPhysics := false
    PxRigidBody := none
    PxRigidDynamic := none
    BodySetup := 0
    LinearVelocity := ⟨0, 0, 0⟩
    AngularVelocity := ⟨0, 0, 0⟩
    StaticMesh := none
    bHiddenInGame := false
    bRegistered := false
    TransformUpdatedBindings := 0 }

/-- Modelled from the spec: host mobility write. -/
def SetMobility (c : UStaticMeshComponent) (m : EComponentMobility) : UStaticMeshComponent :=
  { c with Mobility := m }

/-- Modelled from the spec: enable or disable world-space simulation of the host body. -/
def SetSimulatePhysics (c : UStaticMeshComponent) (b : Bool) : UStaticMeshComponent :=
  { c with bSimulatePhysics := b, bIsSimulatingPhysics := b }

/-- Modelled from the spec: "terminate body", the host body leaves the world simulation. The
  velocities are those of the body, so they go with it: a component without a body reports
  zero velocity. -/
def TermBody (c : UStaticMeshComponent) : UStaticMeshComponent :=
  { c with PxRigidBody := none, PxRigidDynamic := none, bIsSimulatingPhysics := false,
           LinearVelocity := ⟨0, 0, 0⟩, AngularVelocity := ⟨0, 0, 0⟩ }

/-- Modelled from the spec: "initialize body at transform", the host body re-enters the
  world simulation, built from the component's body setup; the new body starts at rest. -/
def InitBody (c : UStaticMeshComponent) : UStaticMeshComponent :=
  { c with PxRigidBody := some c.BodySetup, PxRigidDynamic := some c.BodySetup,
           bIsSimulatingPhysics := c.bSimulatePhysics,
           LinearVelocity := ⟨0, 0, 0⟩, AngularVelocity := ⟨0, 0, 0⟩ }

end UStaticMeshComponent

/-- Host side seen from the volume: whether `GetWorld()->GetPhysicsScene()` is non-null, the
  arena of components (a component pointer is an index), the rotation of
  `LocalSpace->ComponentToWorld` and `GetActorRotation()`. -/
structure FHost where
  PhysScene : Bool
  Meshes : List UStaticMeshComponent
  ComponentToWorldRotation : FQuat ℚ
  ActorRotation : FRotator ℚ
  deriving DecidableEq, Repr

/-- Apply `f` to the cell at index `i` of an arena (no effect outside the arena). -/
def modifyAt {α : Type} (f : α → α) : Nat → List α → List α
  | _, [] => []
  | 0, a :: l => f a :: l
  | i + 1, a :: l => a :: modifyAt f i l

/-- Write through a component pointer. -/
def FHost.modifyMesh (h : FHost) (Mesh : Nat) (f : UStaticMeshComponent → UStaticMeshComponent) :
    FHost :=
  { h with Meshes := modifyAt f Mesh h.Meshes }

/-! ## Local simulation -/

/-- Modelled from the spec: a body of the local simulation behind an `FActorHandle`
  (section 4.1): whether it was created dynamic, the descriptor it was seeded from, and its
  local-space velocities. -/
structure FActorHandle where
  bDynamic : Bool
  RigidBody : Nat
  LinearVelocity : FVector ℚ
  AngularVelocity : FVector ℚ
  deriving DecidableEq, Repr

/-- Engine type `FConstraintInstance`, reduced to an identifying setting; the
  default-constructed instance is `default`. -/
structure FConstraintInstance where
  ProfileInstance : Nat
  deriving DecidableEq, Repr, Inhabited

/-- Modelled from the spec: a joint of the local simulation behind an `FJointHandle`
  (section 4.1). -/
structure FJointHandle where
  Joint : Nat
  ActorOne : Nat
  ActorTwo : Nat
  deriving DecidableEq, Repr

/-- Modelled from the spec: `FLocalSimulation` (section 4.1), which owns the set of local
  body handles and joint handles. Its header and implementation are not part of the source
  file embedded here. -/
structure FLocalSimulation where
  handleArena : List FActorHandle
  jointHandleArena : List FJointHandle
  ActorHandles : List Nat
  JointHandles : List Nat
  deriving DecidableEq, Repr

namespace FLocalSimulation

/-- Modelled from the spec: `createKinematicActor`, registers a new local body seeded from a
  descriptor and returns its handle. -/
def CreateKinematicActor (sim : FLocalSimulation) (body : Nat) : Nat × FLocalSimulation :=
  (sim.handleArena.length,
    { sim with
      handleArena := sim.handleArena ++ [⟨false, body, ⟨0, 0, 0⟩, ⟨0, 0, 0⟩⟩]
      ActorHandles := sim.ActorHandles ++ [sim.handleArena.length] })

/-- Modelled from the spec: `createDynamicActor`; the new body starts at rest. -/
def CreateDynamicActor (sim : FLocalSimulation) (body : Nat) : Nat × FLocalSimulation :=
  (sim.handleArena.length,
    { sim with
      handleArena := sim.handleArena ++ [⟨true, body, ⟨0, 0, 0⟩, ⟨0, 0, 0⟩⟩]
      ActorHandles := sim.ActorHandles ++ [sim.handleArena.length] })

/-- Modelled from the spec: `removeActor`, deregisters a body. -/
def RemoveActor (sim : FLocalSimulation) (Handle : Nat) : FLocalSimulation :=
  { sim with ActorHandles := sim.ActorHandles.filter (fun h => h != Handle) }

/-- Modelled from the spec: `createJoint`, "fails if either handle is invalid". -/
def CreateJoint (sim : FLocalSimulation) (PD6Joint ActorOne ActorTwo : Nat) :
    Option Nat × FLocalSimulation :=
  if sim.ActorHandles.contains ActorOne && sim.ActorHandles.contains ActorTwo then
    (some sim.jointHandleArena.length,
      { sim with
        jointHandleArena := sim.jointHandleArena ++ [⟨PD6Joint, ActorOne, ActorTwo⟩]
        JointHandles := sim.JointHandles ++ [sim.jointHandleArena.length] })
  else
    (none, sim)

/-- Modelled from the spec: `removeJoint`. -/
def RemoveJoint (sim : FLocalSimulation) (JointHandle : Option Nat) : FLocalSimulation :=
  match JointHandle with
  | some j => { sim with JointHandles := sim.JointHandles.filter (fun h => h != j) }
  | none => sim

/-- Modelled from the spec: `handleAvailableToSimulate`, "true iff the local simulation
  currently owns at least one active body". -/
def HandleAvailableToSimulate (sim : FLocalSimulation) : Bool :=
  !sim.ActorHandles.isEmpty

/-- Modelled from the spec: `simulate(deltaTime, localGravity)`. The solver is an external
  physics kernel, taken as the parameter `kernel`: it yields the new content of every body
  cell and cannot create or remove bodies. -/
def Simulate (kernel : ℚ → FVector ℚ → List FActorHandle → Nat → FActorHandle → FActorHandle)
    (sim : FLocalSimulation) (DeltaTime : ℚ) (Gravity : FVector ℚ) : FLocalSimulation :=
  { sim with
    handleArena :=
      sim.handleArena.enum.map (fun ih => kernel DeltaTime Gravity sim.handleArena ih.1 ih.2) }

/-- Write through a handle pointer. -/
def modifyHandle (sim : FLocalSimulation) (Handle : Nat) (f : FActorHandle → FActorHandle) :
    FLocalSimulation :=
  { sim with handleArena := modifyAt f Handle sim.handleArena }

end FLocalSimulation

/-! ## Records and volume state -/

/-- Modelled from the spec: `LocalPhysicData`, the BodyRecord of section 3. The constructor
  `LocalPhysicData(sim, visual, physicsMesh, handle, bodyType)` stores its arguments in these
  fields; the type declaration is not part of the source file embedded here. -/
structure LocalPhysicData where
  InVisualMesh : Nat
  InPhysicsMesh : Option Nat
  InHandle : Option Nat
  InBodyType : ELocalPhysicsBodyType
  deriving DecidableEq, Repr

/-- Modelled from the spec: `LocalPhysicJointData`, the JointRecord of section 3. The
  constructor `LocalPhysicJointData(sim, bodies, jointHandle, typeOne, typeTwo)` stores its
  arguments in these fields. -/
structure LocalPhysicJointData where
  Bodies : List Nat
  JointHandle : Option Nat
  TypeOne : ELocalPhysicsBodyType
  TypeTwo : ELocalPhysicsBodyType
  deriving DecidableEq, Repr

/-- State of an `ALocalSimulationVolume` together with the host it lives in. -/
structure ALocalSimulationVolume where
  Host : FHost
  LocalSimulation : FLocalSimulation
  bodyArena : List LocalPhysicData
  jointArena : List LocalPhysicJointData
  deletedBodies : List Nat
  deletedJoints : List Nat
  SimulatedActors : List Nat
  JointActors : List Nat
  MeshDataToAdd : List Nat
  MeshDataToRemove : List Nat
  JointsToRemove : List Nat
  bDeferAdditionOfBodies : Bool
  bDeferRemovalOfBodies : Bool
  bConvertVelocity : Bool
  bInheritActorRotation : Bool
  LocalRotation : FRotator ℚ
  Gravity : FVector ℚ
  ConstraintProfiles : List FConstraintInstance
  StaticBodies : Int
  KinematicBodies : Int
  DynamicBodies : Int
  JointBodies : Int
  deriving DecidableEq, Repr

namespace ALocalSimulationVolume

/-- Volume as the constructor leaves it: an empty local simulation, no records, nothing
  pending. The configuration (velocity conversion, rotation inheritance, gravity, constraint
  profiles) is set by the host editor and is a parameter here. -/
def construct (Host : FHost) (bConvertVelocity bInheritActorRotation : Bool)
    (LocalRotation : FRotator ℚ) (Gravity : FVector ℚ)
    (ConstraintProfiles : List FConstraintInstance) : ALocalSimulationVolume :=
  { Host := Host
    LocalSimulation := ⟨[], [], [], []⟩
    bodyArena := []
    jointArena := []
    deletedBodies := []
    deletedJoints := []
    SimulatedActors := []
    JointActors := []
    MeshDataToAdd := []
    MeshDataToRemove := []
    JointsToRemove := []
    bDeferAdditionOfBodies := false
    bDeferRemovalOfBodies := false
    bConvertVelocity := bConvertVelocity
    bInheritActorRotation := bInheritActorRotation
    LocalRotation := LocalRotation
    Gravity := Gravity
    ConstraintProfiles := ConstraintProfiles
    StaticBodies := 0
    KinematicBodies := 0
    DynamicBodies := 0
    JointBodies := 0 }

/-! ### Helpers (lookups) -/

/-- `GetDataForStaticMesh`: the first record of `SimulatedActors` whose `InVisualMesh` is
  `Mesh`, or `nullptr`. A pointer outside the arena matches nothing. -/
def GetDataForStaticMesh (s : ALocalSimulationVolume) (Mesh : Nat) : Option Nat :=
  s.SimulatedActors.find? (fun data =>
    match s.bodyArena[data]? with
    | some d => d.InVisualMesh == Mesh
    | none => false)

/-- `TArray::Contains` on a joint's `Bodies` for a possibly null record pointer; `Bodies`
  never holds `nullptr`. -/
def BodiesContains (Bodies : List Nat) (MeshData : Option Nat) : Bool :=
  match MeshData with
  | some p => Bodies.contains p
  | none => false

/-- `GetDataForJoint`: the first joint of `JointActors` whose `Bodies` contains the record
  of `MeshOne` and contains the record of `MeshTwo`, or `nullptr`. -/
def GetDataForJoint (s : ALocalSimulationVolume) (MeshOne MeshTwo : Nat) : Option Nat :=
  let MeshDataOne := GetDataForStaticMesh s MeshOne
  let MeshDataTwo := GetDataForStaticMesh s MeshTwo
  s.JointActors.find? (fun Joint =>
    match s.jointArena[Joint]? with
    | some j => BodiesContains j.Bodies MeshDataOne && BodiesContains j.Bodies MeshDataTwo
    | none => false)

/-- `IsInSimulation`. -/
def IsInSimulation (s : ALocalSimulationVolume) (Mesh : Nat) : Bool :=
  (GetDataForStaticMesh s Mesh).isSome

/-! ### Requests -/

/-- `AddStaticMeshToSimulation` (the spec's `AddBody`). -/
def AddStaticMeshToSimulation (s : ALocalSimulationVolume) (Mesh : Nat)
    (ShouldExistInBothScenes : Bool) : Bool × ALocalSimulationVolume :=
  if IsInSimulation s Mesh then
    (false, s)
  else
    let typeOfAdd := ELocalPhysicsBodyType.Dynamic
    let InPhysicsMesh : Option Nat :=
      if ShouldExistInBothScenes then some s.Host.Meshes.length else none
    let Host : FHost :=
      if ShouldExistInBothScenes then
        { s.Host with Meshes := s.Host.Meshes ++ [UStaticMeshComponent.NewObject] }
      else s.Host
    let NewMeshData := s.bodyArena.length
    (true,
      { s with
        Host := Host
        bodyArena := s.bodyArena ++ [⟨Mesh, InPhysicsMesh, none, typeOfAdd⟩]
        MeshDataToAdd := s.MeshDataToAdd ++ [NewMeshData]
        bDeferAdditionOfBodies := true })

/-- `RemoveStaticMeshFromSimulation` (the spec's `RemoveBody`). -/
def RemoveStaticMeshFromSimulation (s : ALocalSimulationVolume) (Mesh : Nat) :
    Bool × ALocalSimulationVolume :=
  match GetDataForStaticMesh s Mesh with
  | some DataForRemoval =>
    if !s.MeshDataToRemove.contains DataForRemoval then
      (true,
        { s with
          MeshDataToRemove := s.MeshDataToRemove ++ [DataForRemoval]
          bDeferRemovalOfBodies := true })
    else
      (false, s)
  | none => (false, s)

/-- `RemoveConstraintFromStaticMeshes` (the spec's `RemoveConstraint`); the source returns
  `false` on every path. -/
def RemoveConstraintFromStaticMeshes (s : ALocalSimulationVolume) (MeshOne MeshTwo : Nat) :
    Bool × ALocalSimulationVolume :=
  match GetDataForJoint s MeshOne MeshTwo with
  | some JointData =>
    (false,
      { s with
        JointsToRemove := s.JointsToRemove ++ [JointData]
        bDeferRemovalOfBodies := true })
  | none => (false, s)

/-- `AddConstraintToStaticMeshes` (the spec's `AddConstraint`). `PD6Joint` is what the
  native `PxD6JointCreate` returns (`none` for a null joint). The joint record is allocated
  before the native joint is known to exist, as in the source. Reading the body transform of
  a null handle is undefined and yields `none`. -/
def AddConstraintToStaticMeshes (s : ALocalSimulationVolume) (MeshOne MeshTwo : Nat)
    (ConstraintProfileIndex : Int) (PD6Joint : Option Nat) :
    Option (Bool × ALocalSimulationVolume) :=
  match GetDataForStaticMesh s MeshOne, GetDataForStaticMesh s MeshTwo with
  | some MeshDataOne, some MeshDataTwo => do
    let d1 ← s.bodyArena[MeshDataOne]?
    let d2 ← s.bodyArena[MeshDataTwo]?
    let _ConstraintProfile := GetConstraintProfile s.ConstraintProfiles ConstraintProfileIndex
    let newData := s.jointArena.length
    let s1 := { s with
      jointArena := s.jointArena ++ [⟨[MeshDataOne, MeshDataTwo], none, d1.InBodyType, d2.InBodyType⟩] }
    let ActorOne ← d1.InHandle
    let ActorTwo ← d2.InHandle
    let _ ← s.LocalSimulation.handleArena[ActorOne]?
    let _ ← s.LocalSimulation.handleArena[ActorTwo]?
    match PD6Joint with
    | some joint =>
      let r := s1.LocalSimulation.CreateJoint joint ActorOne ActorTwo
      pure (true,
        { s1 with
          LocalSimulation := r.2
          jointArena := modifyAt (fun j => { j with JointHandle := r.1 }) newData s1.jointArena
          JointActors := s1.JointActors ++ [newData] })
    | none => pure (false, s1)
  | _, _ => some (false, s)

/-! ### Drains -/

/-- `RemoveJoints`, one iteration of the loop over `JointsToRemove`. -/
def RemoveJointsBody (JointData : Nat) (s : ALocalSimulationVolume) :
    Option ALocalSimulationVolume := do
  let temp ← s.jointArena[JointData]?
  pure { s with
    LocalSimulation := s.LocalSimulation.RemoveJoint temp.JointHandle
    jointArena := modifyAt (fun j => { j with Bodies := [], JointHandle := none }) JointData
      s.jointArena
    JointBodies := s.JointBodies - 1
    deletedJoints := s.deletedJoints ++ [JointData] }

/-- `RemoveJoints`, the loop. -/
def RemoveJointsLoop : List Nat → ALocalSimulationVolume → Option ALocalSimulationVolume
  | [], s => some s
  | JointData :: rest, s =>
    match RemoveJointsBody JointData s with
    | some s1 => RemoveJointsLoop rest s1
    | none => none

/-- `RemoveJoints`. -/
def RemoveJoints (s : ALocalSimulationVolume) : Option ALocalSimulationVolume :=
  match RemoveJointsLoop s.JointsToRemove s with
  | some s1 => some { s1 with JointsToRemove := [] }
  | none => none

/-- `RemoveMeshData`, one iteration of the loop over `MeshDataToRemove`. -/
def RemoveMeshDataBody (MeshData : Nat) (s : ALocalSimulationVolume) :
    Option ALocalSimulationVolume := do
  let temp ← s.bodyArena[MeshData]?
  let VisualMesh := temp.InVisualMesh
  let Handle ← temp.InHandle
  let h ← s.LocalSimulation.handleArena[Handle]?
  let _ ← s.Host.Meshes[VisualMesh]?
  let Host :=
    if temp.InPhysicsMesh == none then
      (s.Host.modifyMesh VisualMesh UStaticMeshComponent.TermBody).modifyMesh VisualMesh
        UStaticMeshComponent.InitBody
    else s.Host
  let s1 := { s with Host := Host }
  let s2 : ALocalSimulationVolume :=
    match temp.InBodyType with
    | .Static =>
      { s1 with
        Host := s1.Host.modifyMesh VisualMesh (fun c => c.SetMobility .Static)
        StaticBodies := s1.StaticBodies - 1 }
    | .Kinematic =>
      { s1 with
        Host := s1.Host.modifyMesh VisualMesh (fun c => c.SetMobility .Movable)
        KinematicBodies := s1.KinematicBodies - 1 }
    | .Dynamic =>
      let LinearVelocity :=
        localToWorldVelocity s1.Host.ComponentToWorldRotation s1.LocalRotation h.LinearVelocity
      let AngularVelocity :=
        localToWorldVelocity s1.Host.ComponentToWorldRotation s1.LocalRotation h.AngularVelocity
      let Host1 := s1.Host.modifyMesh VisualMesh (fun c => c.SetMobility .Movable)
      let Host2 := Host1.modifyMesh VisualMesh (fun c => c.SetSimulatePhysics true)
      let Host3 :=
        if s1.bConvertVelocity then
          Host2.modifyMesh VisualMesh (fun c =>
            { c with LinearVelocity := LinearVelocity, AngularVelocity := AngularVelocity })
        else Host2
      { s1 with Host := Host3, DynamicBodies := s1.DynamicBodies - 1 }
  pure { s2 with
    LocalSimulation := s2.LocalSimulation.RemoveActor Handle
    SimulatedActors := s2.SimulatedActors.filter (fun p => p != MeshData)
    deletedBodies := s2.deletedBodies ++ [MeshData] }

/-- `RemoveMeshData`, the loop. -/
def RemoveMeshDataLoop : List Nat → ALocalSimulationVolume → Option ALocalSimulationVolume
  | [], s => some s
  | MeshData :: rest, s =>
    match RemoveMeshDataBody MeshData s with
    | some s1 => RemoveMeshDataLoop rest s1
    | none => none

/-- `RemoveMeshData`: nothing happens without a physics scene; otherwise every queued record
  is handed back to the host and the queue is cleared. -/
def RemoveMeshData (s : ALocalSimulationVolume) : Option ALocalSimulationVolume :=
  if !s.Host.PhysScene then
    some s
  else
    match RemoveMeshDataLoop s.MeshDataToRemove s with
    | some s1 => some { s1 with MeshDataToRemove := [] }
    | none => none

/-- Classification computed at the top of the `AddMeshData` loop body (`typeOfAdd`). -/
def typeOfAdd (Mesh : UStaticMeshComponent) : ELocalPhysicsBodyType :=
  let typeOfAdd := ELocalPhysicsBodyType.Dynamic
  let typeOfAdd :=
    if Mesh.Mobility == .Movable && (!Mesh.bIsSimulatingPhysics || !Mesh.bSimulatePhysics) then
      ELocalPhysicsBodyType.Kinematic
    else typeOfAdd
  let typeOfAdd :=
    if Mesh.Mobility == .Static then ELocalPhysicsBodyType.Static else typeOfAdd
  typeOfAdd

/-- `AddMeshData`, one iteration of the loop over `MeshDataToAdd`. The boolean is `false`
  when the iteration executed `return` (no usable rigid-body descriptor), which leaves the
  whole function. -/
def AddMeshDataBody (MeshData : Nat) (s : ALocalSimulationVolume) :
    Option (ALocalSimulationVolume × Bool) := do
  let d ← s.bodyArena[MeshData]?
  let Mesh := d.InVisualMesh
  let m ← s.Host.Meshes[Mesh]?
  let typeOfAdd := typeOfAdd m
  let (DynamicMesh, Host0) ←
    match d.InPhysicsMesh with
    | some DynamicMesh => do
      let _ ← s.Host.Meshes[DynamicMesh]?
      pure (DynamicMesh, s.Host.modifyMesh DynamicMesh (fun c =>
        { c with Mobility := .Movable, bRegistered := true, bHiddenInGame := true,
                 StaticMesh := m.StaticMesh }))
    | none => pure (Mesh, s.Host)
  let Host1 := Host0.modifyMesh Mesh (fun c => c.SetMobility .Movable)
  let BodyInstance ← Host1.Meshes[Mesh]?
  let s1 := { s with Host := Host1 }
  let r : Option ALocalSimulationVolume :=
    match typeOfAdd with
    | .Kinematic =>
      match BodyInstance.PxRigidBody with
      | none => none
      | some kinematicBody =>
        let a := s1.LocalSimulation.CreateKinematicActor kinematicBody
        some { s1 with
          Host := s1.Host.modifyMesh Mesh (fun c =>
            { c with TransformUpdatedBindings := c.TransformUpdatedBindings + 1 })
          KinematicBodies := s1.KinematicBodies + 1
          LocalSimulation := a.2
          bodyArena := modifyAt (fun x => { x with InHandle := some a.1 }) MeshData s1.bodyArena }
    | .Static =>
      match BodyInstance.PxRigidBody with
      | none => none
      | some staticBody =>
        let a := s1.LocalSimulation.CreateKinematicActor staticBody
        some { s1 with
          StaticBodies := s1.StaticBodies + 1
          LocalSimulation := a.2
          bodyArena := modifyAt (fun x => { x with InHandle := some a.1 }) MeshData s1.bodyArena }
    | .Dynamic =>
      match BodyInstance.PxRigidDynamic with
      | none => none
      | some dynamicBody =>
        let LinearVelocity := BodyInstance.LinearVelocity
        let AngularVelocity := BodyInstance.AngularVelocity
        let Host2 := s1.Host.modifyMesh DynamicMesh (fun c => c.SetSimulatePhysics false)
        let a := s1.LocalSimulation.CreateDynamicActor dynamicBody
        let sim :=
          if s1.bConvertVelocity then
            a.2.modifyHandle a.1 (fun h =>
              { h with
                LinearVelocity :=
                  worldToLocalVelocity s1.Host.ComponentToWorldRotation s1.LocalRotation
                    LinearVelocity
                AngularVelocity :=
                  worldToLocalVelocity s1.Host.ComponentToWorldRotation s1.LocalRotation
                    AngularVelocity })
          else a.2
        some { s1 with
          Host := Host2
          DynamicBodies := s1.DynamicBodies + 1
          LocalSimulation := sim
          bodyArena := modifyAt (fun x => { x with InHandle := some a.1 }) MeshData s1.bodyArena }
  match r with
  | none => pure (s1, false)
  | some s2 =>
    let Host3 :=
      if d.InPhysicsMesh == none then s2.Host.modifyMesh Mesh UStaticMeshComponent.TermBody
      else s2.Host
    pure ({ s2 with Host := Host3, SimulatedActors := s2.SimulatedActors ++ [MeshData] }, true)

/-- `AddMeshData`, the loop; the boolean is `false` when an iteration returned early. -/
def AddMeshDataLoop : List Nat → ALocalSimulationVolume → Option (ALocalSimulationVolume × Bool)
  | [], s => some (s, true)
  | MeshData :: rest, s =>
    match AddMeshDataBody MeshData s with
    | some (s1, true) => AddMeshDataLoop rest s1
    | some (s1, false) => some (s1, false)
    | none => none

/-- `AddMeshData`: nothing happens without a physics scene; otherwise the queued records are
  admitted in order, and `MeshDataToAdd.Empty()` is reached only when no iteration returned
  early. -/
def AddMeshData (s : ALocalSimulationVolume) : Option ALocalSimulationVolume :=
  if !s.Host.PhysScene then
    some s
  else
    match AddMeshDataLoop s.MeshDataToAdd s with
    | some (s1, true) => some { s1 with MeshDataToAdd := [] }
    | some (s1, false) => some s1
    | none => none

/-- `DeferredRemoval`. -/
def DeferredRemoval (s : ALocalSimulationVolume) : Option ALocalSimulationVolume :=
  if s.bDeferRemovalOfBodies then do
    let s1 ← RemoveJoints s
    let s2 ← RemoveMeshData s1
    pure { s2 with bDeferRemovalOfBodies := false }
  else
    some s

/-- `DeferredAddition`. -/
def DeferredAddition (s : ALocalSimulationVolume) : Option ALocalSimulationVolume :=
  if s.bDeferAdditionOfBodies then do
    let s1 ← AddMeshData s
    pure { s1 with bDeferAdditionOfBodies := false }
  else
    some s

/-! ### Step -/

/-- `UpdateMeshVisuals`: every simulated record, its visual and its handle are
  dereferenced; the writes are transform writes, which the state does not carry. -/
def UpdateMeshVisuals (s : ALocalSimulationVolume) : Option ALocalSimulationVolume :=
  if s.SimulatedActors.all (fun MeshData =>
      match s.bodyArena[MeshData]? with
      | some d =>
        (s.Host.Meshes[d.InVisualMesh]?).isSome &&
          (match d.InHandle with
           | some Handle => (s.LocalSimulation.handleArena[Handle]?).isSome
           | none => false)
      | none => false) then
    some s
  else
    none

/-- `UpdatePhysics`. -/
def UpdatePhysics (s : ALocalSimulationVolume) : Option ALocalSimulationVolume :=
  UpdateMeshVisuals s

/-- `SimulatePhysics`: gravity is rotated into local space, then the local simulation
  advances. -/
def SimulatePhysics
    (kernel : ℚ → FVector ℚ → List FActorHandle → Nat → FActorHandle → FActorHandle)
    (s : ALocalSimulationVolume) (DeltaTime : ℚ) : ALocalSimulationVolume :=
  { s with
    LocalSimulation :=
      s.LocalSimulation.Simulate kernel DeltaTime
        (s.LocalRotation.RotateVector (s.Host.ComponentToWorldRotation.UnrotateVector s.Gravity)) }

/-- `Update`, the step callback. `LocalSimulation` is created by the constructor and is
  never null, so the second guard of the source never fires. -/
def Update
    (kernel : ℚ → FVector ℚ → List FActorHandle → Nat → FActorHandle → FActorHandle)
    (s : ALocalSimulationVolume) (SceneType : Nat) (DeltaTime : ℚ) :
    Option ALocalSimulationVolume :=
  if SceneType != 0 then
    some s
  else do
    let s1 :=
      if s.bInheritActorRotation then { s with LocalRotation := s.Host.ActorRotation } else s
    let s2 ← DeferredAddition s1
    if !s2.LocalSimulation.HandleAvailableToSimulate then
      pure s2
    else
      let s3 := SimulatePhysics kernel s2 DeltaTime
      let s4 ← DeferredRemoval s3
      UpdatePhysics s4

/-- Every record pointer of the simulated set points into the record arena: it was returned
  by a `new LocalPhysicData`. -/
def RecordsAllocated (s : ALocalSimulationVolume) : Prop :=
  ∀ p ∈ s.SimulatedActors, p < s.bodyArena.length

/-- The part of the state no request writes at all: the host components that already
  exist, the availability of the physics scene, the body counters and the log of destroyed
  records. -/
def RestUntouched (s t : ALocalSimulationVolume) : Prop :=
  (∀ i, i < s.Host.Meshes.length → t.Host.Meshes[i]? = s.Host.Meshes[i]?) ∧
  t.Host.PhysScene = s.Host.PhysScene ∧
  t.StaticBodies = s.StaticBodies ∧ t.KinematicBodies = s.KinematicBodies ∧
  t.DynamicBodies = s.DynamicBodies ∧ t.JointBodies = s.JointBodies ∧
  t.deletedBodies = s.deletedBodies ∧ t.deletedJoints = s.deletedJoints

/-- The state `t` is the state `s` with nothing written but this: records appended to the
  record arena and components appended to the host's components (what `new` and `NewObject`
  allocate), entries appended to the three pending queues, and pending flags raised. Every
  other field of `t`, the configuration included, is the field of `s`. -/
def OnlyQueuesAndFlags (s t : ALocalSimulationVolume) : Prop :=
  ∃ (newRecords : List LocalPhysicData) (newComponents : List UStaticMeshComponent)
    (la lr lj : List Nat) (fa fr : Bool),
    newRecords.length = la.length ∧ newComponents.length ≤ la.length ∧
    t = { s with
          Host := { s.Host with Meshes := s.Host.Meshes ++ newComponents }
          bodyArena := s.bodyArena ++ newRecords
          MeshDataToAdd := s.MeshDataToAdd ++ la
          MeshDataToRemove := s.MeshDataToRemove ++ lr
          JointsToRemove := s.JointsToRemove ++ lj
          bDeferAdditionOfBodies := s.bDeferAdditionOfBodies || fa
          bDeferRemovalOfBodies := s.bDeferRemovalOfBodies || fr }

/-- What a request (`AddStaticMeshToSimulation`, `RemoveStaticMeshFromSimulation`,
  `RemoveConstraintFromStaticMeshes`) may do in going from `s` to `t`: the simulated set, the
  joint collection, the local simulation and every record already allocated are as before,
  `IsInSimulation` answers as before, the pending queues have only grown at the end, no
  pending flag has been lowered, the rest of the state is untouched, and `t` differs from `s`
  in nothing but appended queue entries, raised flags and fresh allocations. -/
def FrameOfRequest (s t : ALocalSimulationVolume) : Prop :=
  t.SimulatedActors = s.SimulatedActors ∧ t.JointActors = s.JointActors ∧
  t.LocalSimulation = s.LocalSimulation ∧ t.jointArena = s.jointArena ∧
  (∀ p, p < s.bodyArena.length → t.bodyArena[p]? = s.bodyArena[p]?) ∧
  (∀ v, t.IsInSimulation v = s.IsInSimulation v) ∧
  (∃ l, t.MeshDataToAdd = s.MeshDataToAdd ++ l) ∧
  (∃ l, t.MeshDataToRemove = s.MeshDataToRemove ++ l) ∧
  (∃ l, t.JointsToRemove = s.JointsToRemove ++ l) ∧
  (s.bDeferAdditionOfBodies = true → t.bDeferAdditionOfBodies = true) ∧
  (s.bDeferRemovalOfBodies = true → t.bDeferRemovalOfBodies = true) ∧
  RestUntouched s t ∧ OnlyQueuesAndFlags s t

/-- The simulated set of `t` is that of `s`: the same record pointers, the same records
  behind them, hence the same answer of `IsInSimulation` for every visual. -/
def SameSimulatedSet (s t : ALocalSimulationVolume) : Prop :=
  t.SimulatedActors = s.SimulatedActors ∧ t.bodyArena = s.bodyArena ∧
  ∀ v, t.IsInSimulation v = s.IsInSimulation v

/-- Entries of the pending-addition queue whose record is for the visual `Mesh`. -/
def pendingAdditionsFor (s : ALocalSimulationVolume) (Mesh : Nat) : List Nat :=
  s.MeshDataToAdd.filter (fun p =>
    match s.bodyArena[p]? with
    | some d => d.InVisualMesh == Mesh
    | none => false)

/-! ## Scenarios

Concrete hosts and call sequences on which the drains are evaluated. -/

namespace Scenario

/-- Type of the external physics kernel handed to `Update`. -/
abbrev Kernel : Type := ℚ → FVector ℚ → List FActorHandle → Nat → FActorHandle → FActorHandle

/-- A kernel that leaves every body as it is. -/
def restKernel : Kernel := fun _ _ _ _ h => h

/-- A host body that is movable, not simulating physics, with a rigid-body descriptor. -/
def kinematicMesh : UStaticMeshComponent :=
  { UStaticMeshComponent.NewObject with
    PxRigidBody := some 1, PxRigidDynamic := some 1, BodySetup := 1, bRegistered := true }

/-- A host body of static mobility with a rigid-body descriptor. -/
def staticMesh : UStaticMeshComponent :=
  { kinematicMesh with Mobility := .Static }

/-- A host body that is movable and simulating physics. -/
def dynamicMesh : UStaticMeshComponent :=
  { kinematicMesh with bSimulatePhysics := true, bIsSimulatingPhysics := true }

/-- A host visual with no physics representation at all. -/
def bareMesh : UStaticMeshComponent :=
  { UStaticMeshComponent.NewObject with bRegistered := true }

/-- Host with five visuals: 0 and 1 dynamic, 2 kinematic, 3 static, 4 without a body. -/
def host (PhysScene : Bool) : FHost :=
  ⟨PhysScene, [dynamicMesh, dynamicMesh, kinematicMesh, staticMesh, bareMesh], ⟨0, 0, 0, 1⟩,
    ⟨0, 1, 0, 1, 0, 1⟩⟩

/-- Freshly constructed volume in that host, velocity conversion on. -/
def volume (PhysScene : Bool) : ALocalSimulationVolume :=
  construct (host PhysScene) true false ⟨0, 1, 0, 1, 0, 1⟩ ⟨0, 0, -980⟩ []

/-- The host's physics scene becomes available or unavailable between two steps. -/
def setPhysScene (s : ALocalSimulationVolume) (PhysScene : Bool) : ALocalSimulationVolume :=
  { s with Host := { s.Host with PhysScene := PhysScene } }

/-- Visuals 0 and 1 are requested and admitted by one step. -/
def admitted (kernel : Kernel) (dt : ℚ) : Option ALocalSimulationVolume :=
  Update kernel
    (AddStaticMeshToSimulation (AddStaticMeshToSimulation (volume true) 0 false).2 1 false).2
    0 dt

/-- After `admitted`, a joint is recorded between visuals 0 and 1. -/
def jointed (kernel : Kernel) (dt : ℚ) : Option ALocalSimulationVolume :=
  (admitted kernel dt).bind (fun s =>
    (AddConstraintToStaticMeshes s 0 1 0 (some 7)).map (fun r => r.2))

/-- The state reached by `admitted` under the resting kernel. -/
def admittedVolume : ALocalSimulationVolume :=
  (admitted restKernel 0).getD (volume true)

/-- The state reached by `jointed` under the resting kernel. -/
def jointedVolume : ALocalSimulationVolume :=
  (jointed restKernel 0).getD (volume true)

end Scenario

end ALocalSimulationVolume

/-! ## Theorems: rotations -/

section Rotations

variable {R : Type} [CommRing R]

theorem FQuat.rotate_unrotate (F : FQuat R) (V : FVector R) (hF : F.SizeSquared = 1) :
    F.RotateVector (F.UnrotateVector V) = V := by
  obtain ⟨x, y, z, w⟩ := F
  obtain ⟨a, b, c⟩ := V
  simp only [FQuat.SizeSquared] at hF
  simp only [FQuat.RotateVector, FQuat.UnrotateVector, FVector.add, FVector.scale,
    FVector.CrossProduct, FVector.mk.injEq]
  refine ⟨?_, ?_, ?_⟩
  · linear_combination
      (-4 * (x * (x * a + y * b + z * c) - (x * x + y * y + z * z) * a)) * hF
  · linear_combination
      (-4 * (y * (x * a + y * b + z * c) - (x * x + y * y + z * z) * b)) * hF
  · linear_combination
      (-4 * (z * (x * a + y * b + z * c) - (x * x + y * y + z * z) * c)) * hF

theorem FRotator.unrotate_rotate (L : FRotator R) (V : FVector R) (hL : L.IsExact) :
    L.UnrotateVector (L.RotateVector V) = V := by
  obtain ⟨sp, cp, sy, cy, sr, cr⟩ := L
  obtain ⟨a, b, c⟩ := V
  obtain ⟨hP, hY, hR⟩ := hL
  simp only at hP hY hR
  simp only [FRotator.RotateVector, FRotator.UnrotateVector, FRotator.Matrix,
    FRotationMatrix.GetTransposed, FRotationMatrix.TransformVector, FVector.mk.injEq]
  refine ⟨?_, ?_, ?_⟩
  · linear_combination
      (a * (cp * cp) + b * (cp * sr * sp) - c * (cp * cr * sp)) * hY + a * hP
  · linear_combination
      (a * (cp * sr * sp) + b * (sr * sr * sp * sp + cr * cr)
        + c * (sr * cr * (1 - sp * sp))) * hY
      + (b * (sr * sr) - c * (sr * cr)) * hP + b * hR
  · linear_combination
      (-a * (cp * cr * sp) + b * (sr * cr * (1 - sp * sp))
        + c * (cr * cr * sp * sp + sr * sr)) * hY
      + (-b * (sr * cr) + c * (cr * cr)) * hP + c * hR

end Rotations

/-! ## Theorems: lookups -/

theorem find?_pred_ext {α : Type} {p q : α → Bool} (l : List α)
    (h : ∀ x ∈ l, p x = q x) : l.find? p = l.find? q := by
  induction l with
  | nil => rfl
  | cons a l ih =>
    have ha : p a = q a := h a (List.mem_cons_self a l)
    have hl : ∀ x ∈ l, p x = q x := fun x hx => h x (List.mem_cons_of_mem a hx)
    simp only [List.find?_cons, ha, ih hl]

theorem length_modifyAt {α : Type} (f : α → α) (i : Nat) (l : List α) :
    (modifyAt f i l).length = l.length := by
  induction l generalizing i with
  | nil => cases i <;> rfl
  | cons a l ih =>
    cases i with
    | zero => rfl
    | succ i => simp [modifyAt, ih]

theorem getElem?_append_singleton_length {α : Type} (l : List α) (a : α) :
    (l ++ [a])[l.length]? = some a := by
  simp

theorem FQuat.unrotate_after_rotate {R : Type} [CommRing R] (F : FQuat R) (V : FVector R)
    (hF : F.SizeSquared = 1) : F.UnrotateVector (F.RotateVector V) = V := by
  obtain ⟨x, y, z, w⟩ := F
  obtain ⟨a, b, c⟩ := V
  simp only [FQuat.SizeSquared] at hF
  simp only [FQuat.RotateVector, FQuat.UnrotateVector, FVector.add, FVector.scale,
    FVector.CrossProduct, FVector.mk.injEq]
  refine ⟨?_, ?_, ?_⟩
  · linear_combination
      (-4 * (x * (x * a + y * b + z * c) - (x * x + y * y + z * z) * a)) * hF
  · linear_combination
      (-4 * (y * (x * a + y * b + z * c) - (x * x + y * y + z * z) * b)) * hF
  · linear_combination
      (-4 * (z * (x * a + y * b + z * c) - (x * x + y * y + z * z) * c)) * hF

/-- The same round trip when the local-rotation override is itself a unit quaternion. -/
theorem quaternion_override_round_trip {R : Type} [CommRing R] (F L : FQuat R)
    (v : FVector R) (hF : F.SizeSquared = 1) (hL : L.SizeSquared = 1) :
    F.RotateVector (L.UnrotateVector (L.RotateVector (F.UnrotateVector v))) = v := by
  rw [FQuat.unrotate_after_rotate L _ hL, FQuat.rotate_unrotate F v hF]

theorem rotate_round_trip {R : Type} [CommRing R] (F : FQuat R) (L : FRotator R)
    (v : FVector R) (hF : F.SizeSquared = 1) (hL : L.IsExact) :
    localToWorldVelocity F L (worldToLocalVelocity F L v) = v := by
  unfold localToWorldVelocity worldToLocalVelocity
  rw [FRotator.unrotate_rotate L _ hL, FQuat.rotate_unrotate F v hF]

namespace ALocalSimulationVolume

open Scenario

theorem GetDataForStaticMesh_eq_some (s : ALocalSimulationVolume) (Mesh p : Nat)
    (h : GetDataForStaticMesh s Mesh = some p) :
    p ∈ s.SimulatedActors ∧ ∃ d, s.bodyArena[p]? = some d ∧ d.InVisualMesh = Mesh := by
  unfold GetDataForStaticMesh at h
  refine ⟨List.mem_of_find?_eq_some h, ?_⟩
  have hp := List.find?_some h
  cases hd : s.bodyArena[p]? with
  | none => simp [hd] at hp
  | some d =>
    simp only [hd, beq_iff_eq] at hp
    exact ⟨d, rfl, hp⟩

theorem GetDataForStaticMesh_eq_none (s : ALocalSimulationVolume) (Mesh : Nat)
    (h : ∀ p ∈ s.SimulatedActors, ∀ d, s.bodyArena[p]? = some d → d.InVisualMesh ≠ Mesh) :
    GetDataForStaticMesh s Mesh = none := by
  unfold GetDataForStaticMesh
  rw [List.find?_eq_none]
  intro p hp
  cases hd : s.bodyArena[p]? with
  | none => simp
  | some d => simpa using h p hp d hd

theorem GetDataForStaticMesh_no_record (s : ALocalSimulationVolume) (Mesh : Nat)
    (h : GetDataForStaticMesh s Mesh = none) :
    ∀ p ∈ s.SimulatedActors, ∀ d, s.bodyArena[p]? = some d → d.InVisualMesh ≠ Mesh := by
  intro p hp d hd
  unfold GetDataForStaticMesh at h
  have := List.find?_eq_none.mp h p hp
  simpa [hd] using this

theorem GetDataForStaticMesh_congr (s t : ALocalSimulationVolume) (Mesh : Nat)
    (hS : t.SimulatedActors = s.SimulatedActors)
    (hA : ∀ p ∈ s.SimulatedActors, t.bodyArena[p]? = s.bodyArena[p]?) :
    GetDataForStaticMesh t Mesh = GetDataForStaticMesh s Mesh := by
  unfold GetDataForStaticMesh
  rw [hS]
  apply find?_pred_ext
  intro p hp
  rw [hA p hp]

theorem RestUntouched.of_eq (s t : ALocalSimulationVolume) (hH : t.Host = s.Host)
    (h1 : t.StaticBodies = s.StaticBodies) (h2 : t.KinematicBodies = s.KinematicBodies)
    (h3 : t.DynamicBodies = s.DynamicBodies) (h4 : t.JointBodies = s.JointBodies)
    (h5 : t.deletedBodies = s.deletedBodies) (h6 : t.deletedJoints = s.deletedJoints) :
    RestUntouched s t :=
  ⟨fun _ _ => by rw [hH], by rw [hH], h1, h2, h3, h4, h5, h6⟩

theorem OnlyQueuesAndFlags.unchanged (s : ALocalSimulationVolume) : OnlyQueuesAndFlags s s := by
  refine ⟨[], [], [], [], [], false, false, rfl, Nat.le_refl _, ?_⟩
  cases s with
  | mk Host _ _ _ _ _ _ _ _ _ _ _ _ _ _ _ _ _ _ _ _ _ =>
    cases Host
    simp

theorem FrameOfRequest.of_fields (s t : ALocalSimulationVolume) (hs : RecordsAllocated s)
    (h1 : t.SimulatedActors = s.SimulatedActors) (h2 : t.JointActors = s.JointActors)
    (h3 : t.LocalSimulation = s.LocalSimulation) (h4 : t.jointArena = s.jointArena)
    (h5 : ∀ p, p < s.bodyArena.length → t.bodyArena[p]? = s.bodyArena[p]?)
    (h6 : ∃ l, t.MeshDataToAdd = s.MeshDataToAdd ++ l)
    (h7 : ∃ l, t.MeshDataToRemove = s.MeshDataToRemove ++ l)
    (h8 : ∃ l, t.JointsToRemove = s.JointsToRemove ++ l)
    (h9 : s.bDeferAdditionOfBodies = true → t.bDeferAdditionOfBodies = true)
    (h10 : s.bDeferRemovalOfBodies = true → t.bDeferRemovalOfBodies = true)
    (h11 : RestUntouched s t) (h12 : OnlyQueuesAndFlags s t) :
    FrameOfRequest s t := by
  refine ⟨h1, h2, h3, h4, h5, ?_, h6, h7, h8, h9, h10, h11, h12⟩
  intro v
  unfold IsInSimulation
  rw [GetDataForStaticMesh_congr s t v h1 (fun p hp => h5 p (hs p hp))]

theorem FrameOfRequest.refl (s : ALocalSimulationVolume) (hs : RecordsAllocated s) :
    FrameOfRequest s s :=
  FrameOfRequest.of_fields s s hs rfl rfl rfl rfl (fun _ _ => rfl) ⟨[], by simp⟩ ⟨[], by simp⟩
    ⟨[], by simp⟩ id id (RestUntouched.of_eq s s rfl rfl rfl rfl rfl rfl rfl)
    (OnlyQueuesAndFlags.unchanged s)

theorem SameSimulatedSet.of_fields_eq (s t : ALocalSimulationVolume)
    (h1 : t.SimulatedActors = s.SimulatedActors) (h2 : t.bodyArena = s.bodyArena) :
    SameSimulatedSet s t := by
  refine ⟨h1, h2, ?_⟩
  intro v
  unfold IsInSimulation
  rw [GetDataForStaticMesh_congr s t v h1 (fun p _ => by rw [h2])]

theorem SameSimulatedSet.chain (s t u : ALocalSimulationVolume) (h1 : SameSimulatedSet s t)
    (h2 : SameSimulatedSet t u) : SameSimulatedSet s u :=
  SameSimulatedSet.of_fields_eq s u (h2.1.trans h1.1) (h2.2.1.trans h1.2.1)

/-! ## Theorems: simulated records stay allocated -/

theorem AddMeshDataBody_shape (p : Nat) (s s1 : ALocalSimulationVolume) (b : Bool)
    (h : AddMeshDataBody p s = some (s1, b)) :
    p < s.bodyArena.length ∧ s1.bodyArena.length = s.bodyArena.length ∧
      (s1.SimulatedActors = s.SimulatedActors ∨ s1.SimulatedActors = s.SimulatedActors ++ [p]) := by
  unfold AddMeshDataBody at h
  cases hd : s.bodyArena[p]? with
  | none => simp [hd] at h
  | some d =>
    have hp : p < s.bodyArena.length := by
      by_contra hlt
      rw [List.getElem?_eq_none (Nat.le_of_not_lt hlt)] at hd
      cases hd
    refine ⟨hp, ?_⟩
    simp only [hd, Option.bind_eq_bind, Option.some_bind, Option.pure_def] at h
    cases hm : s.Host.Meshes[d.InVisualMesh]? with
    | none => simp [hm] at h
    | some m =>
      simp only [hm, Option.some_bind] at h
      cases hphys : d.InPhysicsMesh with
      | none =>
        simp only [hphys, Option.some_bind] at h
        cases hm1 : (s.Host.modifyMesh d.InVisualMesh fun c => c.SetMobility .Movable).Meshes[d.InVisualMesh]? with
        | none => simp [hm1] at h
        | some m1 =>
          simp only [hm1, Option.some_bind] at h
          cases htype : typeOfAdd m <;> simp only [htype] at h
          · cases hb : m1.PxRigidBody <;> simp only [hb, Option.some.injEq, Prod.mk.injEq] at h <;>
              obtain ⟨h1, -⟩ := h <;> subst h1 <;> simp [length_modifyAt]
          · cases hb : m1.PxRigidBody <;> simp only [hb, Option.some.injEq, Prod.mk.injEq] at h <;>
              obtain ⟨h1, -⟩ := h <;> subst h1 <;> simp [length_modifyAt]
          · cases hb : m1.PxRigidDynamic <;> simp only [hb, Option.some.injEq, Prod.mk.injEq] at h <;>
              obtain ⟨h1, -⟩ := h <;> subst h1 <;> simp [length_modifyAt]
      | some c =>
        simp only [hphys] at h
        cases hcm : s.Host.Meshes[c]? with
        | none => simp [hcm] at h
        | some cm =>
          simp only [hcm, Option.some_bind] at h
          generalize hH : (s.Host.modifyMesh c fun x =>
            { x with Mobility := .Movable, bRegistered := true, bHiddenInGame := true,
                     StaticMesh := m.StaticMesh }) = H0 at h
          cases hm1 : (H0.modifyMesh d.InVisualMesh fun c => c.SetMobility .Movable).Meshes[d.InVisualMesh]? with
          | none => simp [hm1] at h
          | some m1 =>
            simp only [hm1, Option.some_bind] at h
            cases htype : typeOfAdd m <;> simp only [htype] at h
            · cases hb : m1.PxRigidBody <;> simp only [hb, Option.some.injEq, Prod.mk.injEq] at h <;>
                obtain ⟨h1, -⟩ := h <;> subst h1 <;> simp [length_modifyAt]
            · cases hb : m1.PxRigidBody <;> simp only [hb, Option.some.injEq, Prod.mk.injEq] at h <;>
                obtain ⟨h1, -⟩ := h <;> subst h1 <;> simp [length_modifyAt]
            · cases hb : m1.PxRigidDynamic <;> simp only [hb, Option.some.injEq, Prod.mk.injEq] at h <;>
                obtain ⟨h1, -⟩ := h <;> subst h1 <;> simp [length_modifyAt]

theorem AddMeshDataBody_allocated (p : Nat) (s s1 : ALocalSimulationVolume) (b : Bool)
    (h : AddMeshDataBody p s = some (s1, b)) (hs : RecordsAllocated s) : RecordsAllocated s1 := by
  obtain ⟨hp, hlen, hsim⟩ := AddMeshDataBody_shape p s s1 b h
  intro q hq
  rw [hlen]
  rcases hsim with hsim | hsim
  · rw [hsim] at hq
    exact hs q hq
  · rw [hsim, List.mem_append, List.mem_singleton] at hq
    rcases hq with hq | hq
    · exact hs q hq
    · rw [hq]; exact hp

theorem AddMeshDataLoop_allocated (l : List Nat) (s s1 : ALocalSimulationVolume) (b : Bool)
    (h : AddMeshDataLoop l s = some (s1, b)) (hs : RecordsAllocated s) : RecordsAllocated s1 := by
  induction l generalizing s with
  | nil =>
    simp only [AddMeshDataLoop, Option.some.injEq, Prod.mk.injEq] at h
    rw [← h.1]; exact hs
  | cons p l ih =>
    simp only [AddMeshDataLoop] at h
    cases hb : AddMeshDataBody p s with
    | none => simp [hb] at h
    | some r =>
      obtain ⟨s2, b2⟩ := r
      have hs2 := AddMeshDataBody_allocated p s s2 b2 hb hs
      cases b2 with
      | true =>
        simp only [hb] at h
        exact ih s2 h hs2
      | false =>
        simp only [hb, Option.some.injEq, Prod.mk.injEq] at h
        rw [← h.1]; exact hs2

theorem AddMeshData_allocated (s s1 : ALocalSimulationVolume)
    (h : AddMeshData s = some s1) (hs : RecordsAllocated s) : RecordsAllocated s1 := by
  unfold AddMeshData at h
  by_cases hscene : (!s.Host.PhysScene) = true
  · rw [if_pos hscene] at h
    cases h; exact hs
  · rw [if_neg hscene] at h
    cases hl : AddMeshDataLoop s.MeshDataToAdd s with
    | none => simp [hl] at h
    | some r =>
      obtain ⟨s2, b2⟩ := r
      have hs2 := AddMeshDataLoop_allocated _ s s2 b2 hl hs
      cases b2 <;> simp only [hl, Option.some.injEq] at h <;> subst h <;> exact hs2

theorem RemoveMeshDataBody_allocated (p : Nat) (s s1 : ALocalSimulationVolume)
    (h : RemoveMeshDataBody p s = some s1) (hs : RecordsAllocated s) : RecordsAllocated s1 := by
  unfold RemoveMeshDataBody at h
  cases hd : s.bodyArena[p]? with
  | none => simp [hd] at h
  | some d =>
    simp only [hd, Option.bind_eq_bind, Option.some_bind, Option.pure_def] at h
    cases hh : d.InHandle with
    | none => simp [hh] at h
    | some Handle =>
      simp only [hh, Option.some_bind] at h
      cases hha : s.LocalSimulation.handleArena[Handle]? with
      | none => simp [hha] at h
      | some hd2 =>
        simp only [hha, Option.some_bind] at h
        cases hm : s.Host.Meshes[d.InVisualMesh]? with
        | none => simp [hm] at h
        | some m =>
          simp only [hm, Option.some_bind, Option.some.injEq] at h
          subst h
          intro q hq
          cases hty : d.InBodyType <;> simp only [hty, List.mem_filter] at hq ⊢ <;>
            exact hs q hq.1

theorem RemoveMeshDataLoop_allocated (l : List Nat) (s s1 : ALocalSimulationVolume)
    (h : RemoveMeshDataLoop l s = some s1) (hs : RecordsAllocated s) : RecordsAllocated s1 := by
  induction l generalizing s with
  | nil =>
    simp only [RemoveMeshDataLoop, Option.some.injEq] at h
    rw [← h]; exact hs
  | cons p l ih =>
    simp only [RemoveMeshDataLoop] at h
    cases hb : RemoveMeshDataBody p s with
    | none => simp [hb] at h
    | some s2 =>
      simp only [hb] at h
      exact ih s2 h (RemoveMeshDataBody_allocated p s s2 hb hs)

theorem RemoveMeshData_allocated (s s1 : ALocalSimulationVolume)
    (h : RemoveMeshData s = some s1) (hs : RecordsAllocated s) : RecordsAllocated s1 := by
  unfold RemoveMeshData at h
  by_cases hscene : (!s.Host.PhysScene) = true
  · rw [if_pos hscene] at h
    cases h; exact hs
  · rw [if_neg hscene] at h
    cases hl : RemoveMeshDataLoop s.MeshDataToRemove s with
    | none => simp [hl] at h
    | some s2 =>
      simp only [hl, Option.some.injEq] at h
      subst h
      exact RemoveMeshDataLoop_allocated _ s s2 hl hs

theorem RemoveJointsLoop_allocated (l : List Nat) (s s1 : ALocalSimulationVolume)
    (h : RemoveJointsLoop l s = some s1) (hs : RecordsAllocated s) : RecordsAllocated s1 := by
  induction l generalizing s with
  | nil =>
    simp only [RemoveJointsLoop, Option.some.injEq] at h
    rw [← h]; exact hs
  | cons p l ih =>
    simp only [RemoveJointsLoop] at h
    cases hb : RemoveJointsBody p s with
    | none => simp [hb] at h
    | some s2 =>
      simp only [hb] at h
      refine ih s2 h ?_
      unfold RemoveJointsBody at hb
      cases hj : s.jointArena[p]? with
      | none => simp [hj] at hb
      | some jd =>
        simp only [hj, Option.bind_eq_bind, Option.some_bind, Option.pure_def,
          Option.some.injEq] at hb
        subst hb
        exact hs

theorem RemoveJoints_allocated (s s1 : ALocalSimulationVolume)
    (h : RemoveJoints s = some s1) (hs : RecordsAllocated s) : RecordsAllocated s1 := by
  unfold RemoveJoints at h
  cases hl : RemoveJointsLoop s.JointsToRemove s with
  | none => simp [hl] at h
  | some s2 =>
    simp only [hl, Option.some.injEq] at h
    subst h
    exact RemoveJointsLoop_allocated _ s s2 hl hs

/-- The step keeps every simulated record pointer inside the arena. -/
theorem Update_allocated (kernel : Kernel)
    (s s1 : ALocalSimulationVolume) (SceneType : Nat) (DeltaTime : ℚ)
    (h : Update kernel s SceneType DeltaTime = some s1) (hs : RecordsAllocated s) :
    RecordsAllocated s1 := by
  unfold Update at h
  by_cases hst : (SceneType != 0) = true
  · rw [if_pos hst] at h
    cases h; exact hs
  · rw [if_neg hst] at h
    simp only [Option.bind_eq_bind, Option.pure_def] at h
    generalize hs0 : (if s.bInheritActorRotation = true then
      { s with LocalRotation := s.Host.ActorRotation } else s) = s0 at h
    have hs0a : RecordsAllocated s0 := by
      subst hs0
      by_cases hb : s.bInheritActorRotation = true
      · rw [if_pos hb]; exact hs
      · rw [if_neg hb]; exact hs
    cases hda : DeferredAddition s0 with
    | none => simp [hda] at h
    | some s2 =>
      have hs2 : RecordsAllocated s2 := by
        unfold DeferredAddition at hda
        by_cases hf : s0.bDeferAdditionOfBodies = true
        · rw [if_pos hf] at hda
          cases ham : AddMeshData s0 with
          | none => simp [ham] at hda
          | some s3 =>
            simp only [ham, Option.bind_eq_bind, Option.some_bind, Option.pure_def,
              Option.some.injEq] at hda
            subst hda
            exact AddMeshData_allocated s0 s3 ham hs0a
        · rw [if_neg hf] at hda
          cases hda; exact hs0a
      simp only [hda, Option.some_bind] at h
      by_cases hav : (!s2.LocalSimulation.HandleAvailableToSimulate) = true
      · rw [if_pos hav] at h
        cases h; exact hs2
      · rw [if_neg hav] at h
        have hs3 : RecordsAllocated (SimulatePhysics kernel s2 DeltaTime) := hs2
        cases hdr : DeferredRemoval (SimulatePhysics kernel s2 DeltaTime) with
        | none => simp [hdr] at h
        | some s4 =>
          have hs4 : RecordsAllocated s4 := by
            unfold DeferredRemoval at hdr
            by_cases hf : (SimulatePhysics kernel s2 DeltaTime).bDeferRemovalOfBodies = true
            · rw [if_pos hf] at hdr
              cases hrj : RemoveJoints (SimulatePhysics kernel s2 DeltaTime) with
              | none => simp [hrj] at hdr
              | some s5 =>
                simp only [hrj, Option.bind_eq_bind, Option.some_bind, Option.pure_def] at hdr
                cases hrm : RemoveMeshData s5 with
                | none => simp [hrm] at hdr
                | some s6 =>
                  simp only [hrm, Option.some_bind, Option.some.injEq] at hdr
                  subst hdr
                  exact RemoveMeshData_allocated s5 s6 hrm
                    (RemoveJoints_allocated _ s5 hrj hs3)
            · rw [if_neg hf] at hdr
              cases hdr; exact hs3
          simp only [hdr, Option.some_bind] at h
          unfold UpdatePhysics UpdateMeshVisuals at h
          split at h
          · cases h; exact hs4
          · cases h

/-- A freshly constructed volume has no simulated record. -/
theorem construct_allocated (Host : FHost) (bConvertVelocity bInheritActorRotation : Bool)
    (LocalRotation : FRotator ℚ) (Gravity : FVector ℚ)
    (ConstraintProfiles : List FConstraintInstance) :
    RecordsAllocated (construct Host bConvertVelocity bInheritActorRotation LocalRotation Gravity
      ConstraintProfiles) := by
  intro p hp
  cases hp

/-- A constraint request writes the joint records and the local simulation only. -/
theorem AddConstraintToStaticMeshes_simulated (s : ALocalSimulationVolume) (MeshOne MeshTwo : Nat)
    (Index : Int) (PD6Joint : Option Nat) (r : Bool × ALocalSimulationVolume)
    (hr : AddConstraintToStaticMeshes s MeshOne MeshTwo Index PD6Joint = some r) :
    r.2.SimulatedActors = s.SimulatedActors ∧ r.2.bodyArena = s.bodyArena := by
  unfold AddConstraintToStaticMeshes at hr
  cases hg1 : GetDataForStaticMesh s MeshOne with
  | none =>
    simp only [hg1, Option.some.injEq] at hr
    subst hr
    exact ⟨rfl, rfl⟩
  | some p1 =>
    cases hg2 : GetDataForStaticMesh s MeshTwo with
    | none =>
      simp only [hg1, hg2, Option.some.injEq] at hr
      subst hr
      exact ⟨rfl, rfl⟩
    | some p2 =>
      simp only [hg1, hg2, Option.bind_eq_bind, Option.pure_def] at hr
      cases h1 : s.bodyArena[p1]? with
      | none => simp [h1] at hr
      | some d1 =>
        cases h2 : s.bodyArena[p2]? with
        | none => simp [h1, h2] at hr
        | some d2 =>
          simp only [h1, h2, Option.some_bind] at hr
          cases h3 : d1.InHandle with
          | none => simp [h3] at hr
          | some a1 =>
            cases h4 : d2.InHandle with
            | none => simp [h3, h4] at hr
            | some a2 =>
              simp only [h3, h4, Option.some_bind] at hr
              cases h5 : s.LocalSimulation.handleArena[a1]? with
              | none => simp [h5] at hr
              | some x1 =>
                cases h6 : s.LocalSimulation.handleArena[a2]? with
                | none => simp [h5, h6] at hr
                | some x2 =>
                  simp only [h5, h6, Option.some_bind] at hr
                  cases PD6Joint with
                  | none =>
                    simp only [Option.some.injEq] at hr
                    subst hr
                    exact ⟨rfl, rfl⟩
                  | some joint =>
                    simp only [Option.some.injEq] at hr
                    subst hr
                    exact ⟨rfl, rfl⟩

/-- The four requests keep every simulated record pointer inside the arena. -/
theorem requests_allocated (s : ALocalSimulationVolume) (MeshOne MeshTwo : Nat) (b : Bool)
    (Index : Int) (PD6Joint : Option Nat) (hs : RecordsAllocated s) :
    RecordsAllocated (AddStaticMeshToSimulation s MeshOne b).2 ∧
    RecordsAllocated (RemoveStaticMeshFromSimulation s MeshOne).2 ∧
    RecordsAllocated (RemoveConstraintFromStaticMeshes s MeshOne MeshTwo).2 ∧
    ∀ r, AddConstraintToStaticMeshes s MeshOne MeshTwo Index PD6Joint = some r →
      RecordsAllocated r.2 := by
  refine ⟨?_, ?_, ?_, ?_⟩
  · unfold AddStaticMeshToSimulation
    split
    · exact hs
    · intro p hp
      have := hs p hp
      simp only [List.length_append, List.length_singleton]
      omega
  · unfold RemoveStaticMeshFromSimulation
    split
    · split
      · exact hs
      · exact hs
    · exact hs
  · unfold RemoveConstraintFromStaticMeshes
    split
    · exact hs
    · exact hs
  · intro r hr
    have key := AddConstraintToStaticMeshes_simulated s MeshOne MeshTwo Index PD6Joint r hr
    intro p hp
    rw [key.1] at hp
    rw [key.2]
    exact hs p hp

/-! ## Theorems: drains of a single entry -/

/-- `GetDataForJoint` does not depend on the order of the two visuals. -/
theorem GetDataForJoint_comm (s : ALocalSimulationVolume) (MeshOne MeshTwo : Nat) :
    GetDataForJoint s MeshOne MeshTwo = GetDataForJoint s MeshTwo MeshOne := by
  unfold GetDataForJoint
  apply find?_pred_ext
  intro j _
  cases s.jointArena[j]? with
  | none => rfl
  | some jd => exact Bool.and_comm _ _

/-- A joint found by `GetDataForJoint` is a recorded joint, both visuals have a record in the
  simulated set, and both records are members of the joint. -/
theorem GetDataForJoint_eq_some (s : ALocalSimulationVolume) (MeshOne MeshTwo j : Nat)
    (h : GetDataForJoint s MeshOne MeshTwo = some j) :
    j ∈ s.JointActors ∧ ∃ jd ra rb, s.jointArena[j]? = some jd ∧
      GetDataForStaticMesh s MeshOne = some ra ∧ GetDataForStaticMesh s MeshTwo = some rb ∧
      ra ∈ jd.Bodies ∧ rb ∈ jd.Bodies := by
  unfold GetDataForJoint at h
  refine ⟨List.mem_of_find?_eq_some h, ?_⟩
  have hp := List.find?_some h
  cases hj : s.jointArena[j]? with
  | none => simp [hj] at hp
  | some jd =>
    cases h1 : GetDataForStaticMesh s MeshOne with
    | none => simp [hj, h1, BodiesContains] at hp
    | some ra =>
      cases h2 : GetDataForStaticMesh s MeshTwo with
      | none => simp [hj, h2, BodiesContains] at hp
      | some rb =>
        simp [hj, h1, h2, BodiesContains] at hp
        exact ⟨jd, ra, rb, rfl, rfl, rfl, hp.1, hp.2⟩

/-- When either visual has no record in the simulated set and no joint record holds a null
  member, `RemoveConstraintFromStaticMeshes` returns `false` and leaves the state as it is. -/
theorem RemoveConstraintFromStaticMeshes_not_admitted (s : ALocalSimulationVolume)
    (MeshOne MeshTwo : Nat)
    (h : GetDataForStaticMesh s MeshOne = none ∨ GetDataForStaticMesh s MeshTwo = none) :
    RemoveConstraintFromStaticMeshes s MeshOne MeshTwo = (false, s) := by
  have hnone : GetDataForJoint s MeshOne MeshTwo = none := by
    cases hg : GetDataForJoint s MeshOne MeshTwo with
    | none => rfl
    | some j =>
      obtain ⟨_, _, ra, rb, _, h1, h2, _, _⟩ := GetDataForJoint_eq_some s MeshOne MeshTwo j hg
      rcases h with h | h
      · rw [h] at h1; cases h1
      · rw [h] at h2; cases h2
  unfold RemoveConstraintFromStaticMeshes
  rw [hnone]

/-! ## Theorems: the simulated set changes only at the drains -/

/-- The joint drain leaves the simulated set, the records, the host and the removal queue
  as they are. -/
theorem RemoveJointsLoop_simulated (l : List Nat) (s s1 : ALocalSimulationVolume)
    (h : RemoveJointsLoop l s = some s1) :
    s1.SimulatedActors = s.SimulatedActors ∧ s1.bodyArena = s.bodyArena ∧ s1.Host = s.Host ∧
    s1.MeshDataToRemove = s.MeshDataToRemove := by
  induction l generalizing s with
  | nil =>
    simp only [RemoveJointsLoop, Option.some.injEq] at h
    rw [← h]; exact ⟨rfl, rfl, rfl, rfl⟩
  | cons p l ih =>
    simp only [RemoveJointsLoop] at h
    cases hb : RemoveJointsBody p s with
    | none => simp [hb] at h
    | some s2 =>
      simp only [hb] at h
      have h2 := ih s2 h
      unfold RemoveJointsBody at hb
      cases hj : s.jointArena[p]? with
      | none => simp [hj] at hb
      | some jd =>
        simp only [hj, Option.bind_eq_bind, Option.some_bind, Option.pure_def,
          Option.some.injEq] at hb
        subst hb
        exact h2

theorem RemoveJoints_simulated (s s1 : ALocalSimulationVolume)
    (h : RemoveJoints s = some s1) :
    s1.SimulatedActors = s.SimulatedActors ∧ s1.bodyArena = s.bodyArena ∧ s1.Host = s.Host ∧
    s1.MeshDataToRemove = s.MeshDataToRemove := by
  unfold RemoveJoints at h
  cases hl : RemoveJointsLoop s.JointsToRemove s with
  | none => simp [hl] at h
  | some s2 =>
    simp only [hl, Option.some.injEq] at h
    subst h
    exact RemoveJointsLoop_simulated _ s s2 hl

theorem UpdateMeshVisuals_eq (s t : ALocalSimulationVolume) (h : UpdateMeshVisuals s = some t) :
    t = s := by
  unfold UpdateMeshVisuals at h
  split at h
  · exact (Option.some.inj h).symm
  · cases h

/-- Inside `DeferredAddition` the simulated set is written by `AddMeshData` alone, and only
  when the pending flag is raised and the physics scene is available. -/
theorem DeferredAddition_simulated (s t : ALocalSimulationVolume)
    (h : DeferredAddition s = some t) :
    SameSimulatedSet s t ∨
    (s.bDeferAdditionOfBodies = true ∧ s.Host.PhysScene = true ∧
      ∃ u, AddMeshData s = some u ∧ SameSimulatedSet u t) := by
  unfold DeferredAddition at h
  by_cases hf : s.bDeferAdditionOfBodies = true
  · rw [if_pos hf] at h
    cases hu : AddMeshData s with
    | none => simp [hu] at h
    | some u =>
      simp only [hu, Option.bind_eq_bind, Option.some_bind, Option.pure_def,
        Option.some.injEq] at h
      subst h
      by_cases hp : s.Host.PhysScene = true
      · exact Or.inr ⟨hf, hp, u, rfl, SameSimulatedSet.of_fields_eq _ _ rfl rfl⟩
      · left
        unfold AddMeshData at hu
        have hp2 : (!s.Host.PhysScene) = true := by simpa using hp
        rw [if_pos hp2] at hu
        cases hu
        exact SameSimulatedSet.of_fields_eq _ _ rfl rfl
  · rw [if_neg hf] at h
    cases h
    exact Or.inl (SameSimulatedSet.of_fields_eq _ _ rfl rfl)

/-- Inside `DeferredRemoval` the simulated set is written by `RemoveMeshData` alone, and only
  when the pending flag is raised and the physics scene is available. -/
theorem DeferredRemoval_simulated (s t : ALocalSimulationVolume)
    (h : DeferredRemoval s = some t) :
    SameSimulatedSet s t ∨
    (s.bDeferRemovalOfBodies = true ∧ s.Host.PhysScene = true ∧
      ∃ j u, RemoveJoints s = some j ∧ SameSimulatedSet s j ∧ RemoveMeshData j = some u ∧
        SameSimulatedSet u t) := by
  unfold DeferredRemoval at h
  by_cases hf : s.bDeferRemovalOfBodies = true
  · rw [if_pos hf] at h
    cases hj : RemoveJoints s with
    | none => simp [hj] at h
    | some j =>
      cases hu : RemoveMeshData j with
      | none => simp [hj, hu] at h
      | some u =>
        simp only [hj, hu, Option.bind_eq_bind, Option.some_bind, Option.pure_def,
          Option.some.injEq] at h
        subst h
        have hjs := RemoveJoints_simulated s j hj
        have hsj : SameSimulatedSet s j := SameSimulatedSet.of_fields_eq _ _ hjs.1 hjs.2.1
        by_cases hp : s.Host.PhysScene = true
        · exact Or.inr ⟨hf, hp, j, u, rfl, hsj, hu, SameSimulatedSet.of_fields_eq _ _ rfl rfl⟩
        · left
          unfold RemoveMeshData at hu
          have hp2 : (!j.Host.PhysScene) = true := by rw [hjs.2.2.1]; simpa using hp
          rw [if_pos hp2] at hu
          cases hu
          exact SameSimulatedSet.chain _ _ _ hsj (SameSimulatedSet.of_fields_eq _ _ rfl rfl)
  · rw [if_neg hf] at h
    cases h
    exact Or.inl (SameSimulatedSet.of_fields_eq _ _ rfl rfl)

/-- With the flag lowered or the scene unavailable, `DeferredAddition` only lowers the flag. -/
theorem DeferredAddition_idle (s t : ALocalSimulationVolume)
    (hn : ¬ (s.bDeferAdditionOfBodies = true ∧ s.Host.PhysScene = true))
    (h : DeferredAddition s = some t) :
    t = { s with bDeferAdditionOfBodies := false } := by
  unfold DeferredAddition at h
  by_cases hf : s.bDeferAdditionOfBodies = true
  · rw [if_pos hf] at h
    have hp2 : (!s.Host.PhysScene) = true := by
      cases hp : s.Host.PhysScene
      · rfl
      · exact absurd ⟨hf, hp⟩ hn
    unfold AddMeshData at h
    rw [if_pos hp2] at h
    simp only [Option.bind_eq_bind, Option.some_bind, Option.pure_def, Option.some.injEq] at h
    exact h.symm
  · rw [if_neg hf] at h
    cases h
    have hf2 : s.bDeferAdditionOfBodies = false := by simpa using hf
    cases s
    simp only at hf2
    subst hf2
    rfl

/-- A step changes the simulated set only at a drain: in the primary scene, with the
  physics scene available and a pending flag raised. -/
theorem Update_simulated (kernel : Kernel) (s t : ALocalSimulationVolume) (SceneType : Nat)
    (dt : ℚ) (h : Update kernel s SceneType dt = some t) :
    SameSimulatedSet s t ∨
    (SceneType = 0 ∧ s.Host.PhysScene = true ∧
      (s.bDeferAdditionOfBodies = true ∨ s.bDeferRemovalOfBodies = true)) := by
  unfold Update at h
  by_cases hsc : (SceneType != 0) = true
  · rw [if_pos hsc] at h
    cases h
    exact Or.inl (SameSimulatedSet.of_fields_eq _ _ rfl rfl)
  · rw [if_neg hsc] at h
    have hsc0 : SceneType = 0 := by simpa using hsc
    by_cases hA : s.bDeferAdditionOfBodies = true ∧ s.Host.PhysScene = true
    · exact Or.inr ⟨hsc0, hA.2, Or.inl hA.1⟩
    · by_cases hR : s.bDeferRemovalOfBodies = true ∧ s.Host.PhysScene = true
      · exact Or.inr ⟨hsc0, hR.2, Or.inr hR.1⟩
      · left
        generalize hs1 : (if s.bInheritActorRotation = true
          then { s with LocalRotation := s.Host.ActorRotation } else s) = s1 at h
        have e1 : s1.SimulatedActors = s.SimulatedActors ∧ s1.bodyArena = s.bodyArena ∧
            s1.Host = s.Host ∧ s1.bDeferAdditionOfBodies = s.bDeferAdditionOfBodies ∧
            s1.bDeferRemovalOfBodies = s.bDeferRemovalOfBodies := by
          rw [← hs1]
          split
          · exact ⟨rfl, rfl, rfl, rfl, rfl⟩
          · exact ⟨rfl, rfl, rfl, rfl, rfl⟩
        cases h2 : DeferredAddition s1 with
        | none => simp [h2] at h
        | some s2 =>
          simp only [h2, Option.bind_eq_bind, Option.some_bind, Option.pure_def] at h
          have e2 := DeferredAddition_idle s1 s2 (by rw [e1.2.2.2.1, e1.2.2.1]; exact hA) h2
          have hss2 : SameSimulatedSet s s2 :=
            SameSimulatedSet.of_fields_eq _ _ (by rw [e2]; exact e1.1) (by rw [e2]; exact e1.2.1)
          split at h
          · cases h
            exact hss2
          · cases h4 : DeferredRemoval (SimulatePhysics kernel s2 dt) with
            | none => simp [h4] at h
            | some s4 =>
              simp only [h4, Option.some_bind] at h
              have e5 : t = s4 := UpdateMeshVisuals_eq s4 t h
              subst e5
              rcases DeferredRemoval_simulated _ _ h4 with h5 | h5
              · exact SameSimulatedSet.chain _ _ _
                  (SameSimulatedSet.chain _ _ _ hss2 (SameSimulatedSet.of_fields_eq _ _ rfl rfl)) h5
              · exfalso
                apply hR
                have h51 := h5.1
                have h52 := h5.2.1
                simp only [SimulatePhysics] at h51 h52
                rw [e2] at h51 h52
                simp only at h51 h52
                rw [e1.2.2.2.2] at h51
                rw [e1.2.2.1] at h52
                exact ⟨h51, h52⟩

/-! ## Theorems: the claims -/

/-- C1 (fails on the code). Evaluated on a freshly constructed volume: visual 0 has no record
  in the simulated set, yet `AddStaticMeshToSimulation` called twice for it with no drain in
  between returns `true` both times, and the pending-addition queue then holds two entries
  for that visual, not one. The guard consults `SimulatedActors` only, never
  `MeshDataToAdd`. -/
theorem AddStaticMeshToSimulation_twice_before_drain :
    IsInSimulation (volume true) 0 = false ∧
    (AddStaticMeshToSimulation (volume true) 0 false).1 = true ∧
    (AddStaticMeshToSimulation (AddStaticMeshToSimulation (volume true) 0 false).2 0 false).1
      = true ∧
    (AddStaticMeshToSimulation (AddStaticMeshToSimulation (volume true) 0 false).2 0
      false).2.MeshDataToAdd = [0, 1] ∧
    pendingAdditionsFor
      (AddStaticMeshToSimulation (AddStaticMeshToSimulation (volume true) 0 false).2 0 false).2
      0 = [0, 1] :=
  ⟨rfl, rfl, rfl, rfl, rfl⟩

/-- C2. `RemoveStaticMeshFromSimulation s Mesh`: (1) when no record of the simulated set has
  visual `Mesh` it returns `false` and the state is unchanged; (2) the record `p` found for
  `Mesh` is a member of the simulated set whose visual is `Mesh`; (3) when that record is not
  yet pending removal the call returns `true`, the new state is the old one with exactly `p`
  appended to `MeshDataToRemove` and `bDeferRemovalOfBodies` set, and a repeated call returns
  `false` and changes nothing; (4) when `p` is already pending the call returns `false` and
  changes nothing; (5) over any sequence of calls a duplicate-free `MeshDataToRemove` stays
  duplicate-free. -/
theorem RemoveStaticMeshFromSimulation_contract (s : ALocalSimulationVolume) (Mesh : Nat) :
    ((∀ p ∈ s.SimulatedActors, ∀ d, s.bodyArena[p]? = some d → d.InVisualMesh ≠ Mesh) →
        RemoveStaticMeshFromSimulation s Mesh = (false, s)) ∧
    (∀ p, GetDataForStaticMesh s Mesh = some p →
        p ∈ s.SimulatedActors ∧ ∃ d, s.bodyArena[p]? = some d ∧ d.InVisualMesh = Mesh) ∧
    (∀ p, GetDataForStaticMesh s Mesh = some p → p ∉ s.MeshDataToRemove →
        RemoveStaticMeshFromSimulation s Mesh =
          (true, { s with
                   MeshDataToRemove := s.MeshDataToRemove ++ [p]
                   bDeferRemovalOfBodies := true }) ∧
        RemoveStaticMeshFromSimulation (RemoveStaticMeshFromSimulation s Mesh).2 Mesh =
          (false, (RemoveStaticMeshFromSimulation s Mesh).2)) ∧
    (∀ p, GetDataForStaticMesh s Mesh = some p → p ∈ s.MeshDataToRemove →
        RemoveStaticMeshFromSimulation s Mesh = (false, s)) ∧
    (∀ calls : List Nat, s.MeshDataToRemove.Nodup →
        (calls.foldl (fun t v => (RemoveStaticMeshFromSimulation t v).2)
          s).MeshDataToRemove.Nodup) := by
  refine ⟨?_, ?_, ?_, ?_, ?_⟩
  · intro h
    simp [RemoveStaticMeshFromSimulation, GetDataForStaticMesh_eq_none s Mesh h]
  · intro p hp
    exact GetDataForStaticMesh_eq_some s Mesh p hp
  · intro p hp hq
    have h1 : RemoveStaticMeshFromSimulation s Mesh =
        (true, { s with
                 MeshDataToRemove := s.MeshDataToRemove ++ [p]
                 bDeferRemovalOfBodies := true }) := by
      simp [RemoveStaticMeshFromSimulation, hp, hq]
    refine ⟨h1, ?_⟩
    rw [h1]
    have hp2 : GetDataForStaticMesh
        { s with
          MeshDataToRemove := s.MeshDataToRemove ++ [p]
          bDeferRemovalOfBodies := true } Mesh = some p := hp
    simp [RemoveStaticMeshFromSimulation, hp2]
  · intro p hp hq
    simp [RemoveStaticMeshFromSimulation, hp, hq]
  · intro calls
    induction calls generalizing s with
    | nil => intro h; exact h
    | cons v calls ih =>
      intro h
      simp only [List.foldl_cons]
      apply ih
      unfold RemoveStaticMeshFromSimulation
      cases hg : GetDataForStaticMesh s v with
      | none => exact h
      | some p =>
        by_cases hq : p ∈ s.MeshDataToRemove
        · simp [hq, h]
        · simp [hq]
          exact List.Nodup.append h (List.nodup_singleton p) (by simpa using hq)

/-- Witness for C2 on the state with visuals 0 and 1 admitted: visual 2 has no record and
  its removal request changes nothing; the record of visual 0 is record 0, it is not pending,
  the first removal request queues it and the second is rejected; after the requests for
  visuals 0, 0, 1, 2, 1, 0 the queue is `[0, 1]`, without a duplicate. -/
theorem RemoveStaticMeshFromSimulation_contract_witness :
    RemoveStaticMeshFromSimulation admittedVolume 2 = (false, admittedVolume) ∧
    GetDataForStaticMesh admittedVolume 0 = some 0 ∧ 0 ∉ admittedVolume.MeshDataToRemove ∧
    (RemoveStaticMeshFromSimulation admittedVolume 0 =
        (true, { admittedVolume with
                 MeshDataToRemove := admittedVolume.MeshDataToRemove ++ [0]
                 bDeferRemovalOfBodies := true }) ∧
      RemoveStaticMeshFromSimulation (RemoveStaticMeshFromSimulation admittedVolume 0).2 0 =
        (false, (RemoveStaticMeshFromSimulation admittedVolume 0).2)) ∧
    ([0, 0, 1, 2, 1, 0].foldl (fun t v => (RemoveStaticMeshFromSimulation t v).2)
        admittedVolume).MeshDataToRemove = [0, 1] ∧
    ([0, 0, 1, 2, 1, 0].foldl (fun t v => (RemoveStaticMeshFromSimulation t v).2)
        admittedVolume).MeshDataToRemove.Nodup :=
  ⟨(RemoveStaticMeshFromSimulation_contract admittedVolume 2).1
      (GetDataForStaticMesh_no_record admittedVolume 2 (by decide)),
    by decide, by decide,
    (RemoveStaticMeshFromSimulation_contract admittedVolume 0).2.2.1 0 (by decide) (by decide),
    by decide,
    (RemoveStaticMeshFromSimulation_contract admittedVolume 0).2.2.2.2 [0, 0, 1, 2, 1, 0]
      (by decide)⟩

/-- C3. In a state whose simulated records are allocated, none of `AddStaticMeshToSimulation`,
  `RemoveStaticMeshFromSimulation`, `RemoveConstraintFromStaticMeshes` changes the simulated
  set, the joint collection, the local simulation or any existing record, whatever the
  arguments, and `IsInSimulation` answers the same for every visual right after the call. The
  state after the call is the state before it with entries appended to the pending queues,
  pending flags raised and, for an addition request, the record (and clone component) it
  allocates; every other field, the configuration included, is as before. It is exactly:
  the old state, or the old state with one record allocated and queued for addition and the
  addition flag raised; the old state, or the old state with the found record queued for
  removal and the removal flag raised; the old state, or the old state with the found joint
  queued for removal and the removal flag raised. The simulated set changes only at the
  drains of `Update`: `AddConstraintToStaticMeshes`, `SimulatePhysics`, `RemoveJoints`,
  `UpdateMeshVisuals` and `UpdatePhysics` leave it as it is; inside `DeferredAddition` and
  `DeferredRemoval` it is written by `AddMeshData` and `RemoveMeshData` alone; and a step
  of `Update` that changes it runs in the primary scene with the physics scene available
  and a pending flag raised. -/
theorem requests_leave_simulated_set (s : ALocalSimulationVolume)
    (MeshAdded MeshRemoved MeshOne MeshTwo : Nat) (ShouldExistInBothScenes : Bool)
    (hs : RecordsAllocated s) :
    (∀ t ∈ [(AddStaticMeshToSimulation s MeshAdded ShouldExistInBothScenes).2,
            (RemoveStaticMeshFromSimulation s MeshRemoved).2,
            (RemoveConstraintFromStaticMeshes s MeshOne MeshTwo).2],
      FrameOfRequest s t) ∧
    ((AddStaticMeshToSimulation s MeshAdded ShouldExistInBothScenes).2 = s ∨
      (IsInSimulation s MeshAdded = false ∧
        (AddStaticMeshToSimulation s MeshAdded ShouldExistInBothScenes).2 =
          { s with
            Host :=
              { s.Host with
                Meshes := s.Host.Meshes ++
                  (if ShouldExistInBothScenes then [UStaticMeshComponent.NewObject] else []) }
            bodyArena := s.bodyArena ++
              [⟨MeshAdded,
                if ShouldExistInBothScenes then some s.Host.Meshes.length else none,
                none, ELocalPhysicsBodyType.Dynamic⟩]
            MeshDataToAdd := s.MeshDataToAdd ++ [s.bodyArena.length]
            bDeferAdditionOfBodies := true })) ∧
    ((RemoveStaticMeshFromSimulation s MeshRemoved).2 = s ∨
      ∃ p, GetDataForStaticMesh s MeshRemoved = some p ∧ p ∈ s.SimulatedActors ∧
        (RemoveStaticMeshFromSimulation s MeshRemoved).2 =
          { s with
            MeshDataToRemove := s.MeshDataToRemove ++ [p]
            bDeferRemovalOfBodies := true }) ∧
    ((RemoveConstraintFromStaticMeshes s MeshOne MeshTwo).2 = s ∨
      ∃ j, GetDataForJoint s MeshOne MeshTwo = some j ∧ j ∈ s.JointActors ∧
        (RemoveConstraintFromStaticMeshes s MeshOne MeshTwo).2 =
          { s with
            JointsToRemove := s.JointsToRemove ++ [j]
            bDeferRemovalOfBodies := true }) ∧
    (∀ Index PD6Joint r,
      AddConstraintToStaticMeshes s MeshOne MeshTwo Index PD6Joint = some r →
        SameSimulatedSet s r.2) ∧
    (∀ (kernel : Kernel) (dt : ℚ), SameSimulatedSet s (SimulatePhysics kernel s dt)) ∧
    (∀ t, RemoveJoints s = some t → SameSimulatedSet s t) ∧
    (∀ t, UpdateMeshVisuals s = some t → t = s) ∧
    (∀ t, UpdatePhysics s = some t → t = s) ∧
    (∀ t, DeferredAddition s = some t →
      SameSimulatedSet s t ∨
      (s.bDeferAdditionOfBodies = true ∧ s.Host.PhysScene = true ∧
        ∃ u, AddMeshData s = some u ∧ SameSimulatedSet u t)) ∧
    (∀ t, DeferredRemoval s = some t →
      SameSimulatedSet s t ∨
      (s.bDeferRemovalOfBodies = true ∧ s.Host.PhysScene = true ∧
        ∃ j u, RemoveJoints s = some j ∧ SameSimulatedSet s j ∧ RemoveMeshData j = some u ∧
          SameSimulatedSet u t)) ∧
    (∀ (kernel : Kernel) (SceneType : Nat) (dt : ℚ) t,
      Update kernel s SceneType dt = some t →
        SameSimulatedSet s t ∨
        (SceneType = 0 ∧ s.Host.PhysScene = true ∧
          (s.bDeferAdditionOfBodies = true ∨ s.bDeferRemovalOfBodies = true))) := by
  have hadd : IsInSimulation s MeshAdded = false →
      (AddStaticMeshToSimulation s MeshAdded ShouldExistInBothScenes).2 =
          { s with
            Host :=
              { s.Host with
                Meshes := s.Host.Meshes ++
                  (if ShouldExistInBothScenes then [UStaticMeshComponent.NewObject] else []) }
            bodyArena := s.bodyArena ++
              [⟨MeshAdded,
                if ShouldExistInBothScenes then some s.Host.Meshes.length else none,
                none, ELocalPhysicsBodyType.Dynamic⟩]
            MeshDataToAdd := s.MeshDataToAdd ++ [s.bodyArena.length]
            bDeferAdditionOfBodies := true } := by
    intro hin
    unfold AddStaticMeshToSimulation
    rw [if_neg (by rw [hin]; exact Bool.false_ne_true)]
    cases ShouldExistInBothScenes
    · cases s with
      | mk Host _ _ _ _ _ _ _ _ _ _ _ _ _ _ _ _ _ _ _ _ _ =>
        cases Host
        simp
    · rfl
  refine ⟨?_, ?_, ?_, ?_, ?_, ?_, ?_, ?_, ?_, ?_, ?_, ?_⟩
  · intro t ht
    simp only [List.mem_cons, List.mem_singleton, List.not_mem_nil, or_false] at ht
    rcases ht with ht | ht | ht
    · subst ht
      by_cases hin : IsInSimulation s MeshAdded = true
      · unfold AddStaticMeshToSimulation
        rw [if_pos hin]
        exact FrameOfRequest.refl s hs
      · have hin2 : IsInSimulation s MeshAdded = false := by simpa using hin
        rw [hadd hin2]
        refine FrameOfRequest.of_fields s _ hs rfl rfl rfl rfl ?_ ⟨[s.bodyArena.length], rfl⟩
          ⟨[], by simp⟩ ⟨[], by simp⟩ (fun _ => rfl) id ?_ ?_
        · intro p hp
          exact List.getElem?_append_left hp
        · exact ⟨fun i hi => List.getElem?_append_left hi, rfl, rfl, rfl, rfl, rfl, rfl, rfl⟩
        · refine ⟨[⟨MeshAdded,
              if ShouldExistInBothScenes then some s.Host.Meshes.length else none,
              none, ELocalPhysicsBodyType.Dynamic⟩],
            (if ShouldExistInBothScenes then [UStaticMeshComponent.NewObject] else []),
            [s.bodyArena.length], [], [], true, false, rfl, ?_, ?_⟩
          · cases ShouldExistInBothScenes
            · exact Nat.zero_le _
            · exact Nat.le_refl _
          · simp
    · subst ht
      unfold RemoveStaticMeshFromSimulation
      cases hg : GetDataForStaticMesh s MeshRemoved with
      | none => exact FrameOfRequest.refl s hs
      | some p =>
        by_cases hq : (!s.MeshDataToRemove.contains p) = true
        · simp only []
          rw [if_pos hq]
          refine FrameOfRequest.of_fields s _ hs rfl rfl rfl rfl (fun _ _ => rfl) ⟨[], by simp⟩
            ⟨[p], rfl⟩ ⟨[], by simp⟩ id (fun _ => rfl)
            (RestUntouched.of_eq s _ rfl rfl rfl rfl rfl rfl rfl) ?_
          refine ⟨[], [], [], [p], [], false, true, rfl, Nat.le_refl _, ?_⟩
          cases s with
          | mk Host _ _ _ _ _ _ _ _ _ _ _ _ _ _ _ _ _ _ _ _ _ =>
            cases Host
            simp
        · simp only []
          rw [if_neg hq]
          exact FrameOfRequest.refl s hs
    · subst ht
      unfold RemoveConstraintFromStaticMeshes
      cases hg : GetDataForJoint s MeshOne MeshTwo with
      | none => exact FrameOfRequest.refl s hs
      | some j =>
        refine FrameOfRequest.of_fields s _ hs rfl rfl rfl rfl (fun _ _ => rfl) ⟨[], by simp⟩
          ⟨[], by simp⟩ ⟨[j], rfl⟩ id (fun _ => rfl)
          (RestUntouched.of_eq s _ rfl rfl rfl rfl rfl rfl rfl) ?_
        refine ⟨[], [], [], [], [j], false, true, rfl, Nat.le_refl _, ?_⟩
        cases s with
        | mk Host _ _ _ _ _ _ _ _ _ _ _ _ _ _ _ _ _ _ _ _ _ =>
          cases Host
          simp
  · by_cases hin : IsInSimulation s MeshAdded = true
    · left
      unfold AddStaticMeshToSimulation
      rw [if_pos hin]
    · have hin2 : IsInSimulation s MeshAdded = false := by simpa using hin
      exact Or.inr ⟨hin2, hadd hin2⟩
  · unfold RemoveStaticMeshFromSimulation
    cases hg : GetDataForStaticMesh s MeshRemoved with
    | none => exact Or.inl rfl
    | some p =>
      by_cases hq : (!s.MeshDataToRemove.contains p) = true
      · simp only []
        rw [if_pos hq]
        exact Or.inr ⟨p, rfl, (GetDataForStaticMesh_eq_some s MeshRemoved p hg).1, rfl⟩
      · simp only []
        rw [if_neg hq]
        exact Or.inl rfl
  · unfold RemoveConstraintFromStaticMeshes
    cases hg : GetDataForJoint s MeshOne MeshTwo with
    | none => exact Or.inl rfl
    | some j =>
      exact Or.inr ⟨j, rfl, (GetDataForJoint_eq_some s MeshOne MeshTwo j hg).1, rfl⟩
  · intro Index PD6Joint r hr
    have key := AddConstraintToStaticMeshes_simulated s MeshOne MeshTwo Index PD6Joint r hr
    exact SameSimulatedSet.of_fields_eq _ _ key.1 key.2
  · intro kernel dt
    exact SameSimulatedSet.of_fields_eq _ _ rfl rfl
  · intro t ht
    have key := RemoveJoints_simulated s t ht
    exact SameSimulatedSet.of_fields_eq _ _ key.1 key.2.1
  · exact fun t ht => UpdateMeshVisuals_eq s t ht
  · exact fun t ht => UpdateMeshVisuals_eq s t ht
  · exact fun t ht => DeferredAddition_simulated s t ht
  · exact fun t ht => DeferredRemoval_simulated s t ht
  · exact fun kernel SceneType dt t ht => Update_simulated kernel s t SceneType dt ht

/-- Witness for C3 on the state with visuals 0 and 1 admitted and joined: an addition
  request for visual 2 (with a clone), a removal request for visual 0 and a constraint
  removal for the pair (0, 1), each of which queues something; with nothing pending the
  step returns and leaves the simulated set as it is, and the queued removal of visual 0
  takes effect in the step that follows the request. -/
theorem requests_leave_simulated_set_witness :
    RecordsAllocated jointedVolume ∧
    (AddStaticMeshToSimulation jointedVolume 2 true).2.MeshDataToAdd = [2] ∧
    (RemoveStaticMeshFromSimulation jointedVolume 0).2.MeshDataToRemove = [0] ∧
    (RemoveConstraintFromStaticMeshes jointedVolume 0 1).2.JointsToRemove = [0] ∧
    (∀ t ∈ [(AddStaticMeshToSimulation jointedVolume 2 true).2,
            (RemoveStaticMeshFromSimulation jointedVolume 0).2,
            (RemoveConstraintFromStaticMeshes jointedVolume 0 1).2],
      FrameOfRequest jointedVolume t) ∧
    (Update restKernel jointedVolume 0 0).isSome = true ∧
    (∀ t, Update restKernel jointedVolume 0 0 = some t → SameSimulatedSet jointedVolume t) ∧
    (RemoveStaticMeshFromSimulation jointedVolume 0).2.IsInSimulation 0 = true ∧
    (Update restKernel (RemoveStaticMeshFromSimulation jointedVolume 0).2 0 0).map
      (fun t => (t.SimulatedActors, t.IsInSimulation 0)) = some ([1], false) :=
  ⟨by unfold RecordsAllocated; decide, by decide, by decide, by decide,
    (requests_leave_simulated_set jointedVolume 2 0 0 1 true
      (by unfold RecordsAllocated; decide)).1,
    by decide,
    fun t ht =>
      ((requests_leave_simulated_set jointedVolume 2 0 0 1 true
        (by unfold RecordsAllocated; decide)).2.2.2.2.2.2.2.2.2.2.2 restKernel 0 0 t
        ht).resolve_right (by decide),
    by decide, by decide⟩

/-- C4 (fails on the code). One addition is queued and the next step runs while the physics
  scene is unavailable: the drain leaves the simulated set empty and the queue at `[0]`, but
  `DeferredAddition` still lowers `bDeferAdditionOfBodies`; the following step, with the
  scene available and no request made in between, admits nothing (the same first step with
  the scene available admits the body). Likewise a removal queued for an admitted body and
  met by a step without scene is still queued, and still not applied, after the next step
  with the scene available. -/
theorem Update_without_scene_strands_requests (kernel : Kernel) (dt : ℚ) :
    (Update kernel (AddStaticMeshToSimulation (volume false) 0 false).2 0 dt).map
        (fun s => (s.SimulatedActors, s.MeshDataToAdd, s.bDeferAdditionOfBodies))
      = some ([], [0], false) ∧
    ((Update kernel (AddStaticMeshToSimulation (volume false) 0 false).2 0 dt).bind
        (fun s => Update kernel (setPhysScene s true) 0 dt)).map
        (fun s => (s.Host.PhysScene, s.SimulatedActors, s.MeshDataToAdd))
      = some (true, [], [0]) ∧
    (Update kernel (AddStaticMeshToSimulation (volume true) 0 false).2 0 dt).map
        (fun s => (s.SimulatedActors, s.MeshDataToAdd))
      = some ([0], []) ∧
    ((admitted kernel dt).bind (fun s =>
        Update kernel (setPhysScene (RemoveStaticMeshFromSimulation s 0).2 false) 0 dt)).map
        (fun s => (s.SimulatedActors, s.MeshDataToRemove, s.bDeferRemovalOfBodies))
      = some ([0, 1], [0], false) ∧
    (((admitted kernel dt).bind (fun s =>
        Update kernel (setPhysScene (RemoveStaticMeshFromSimulation s 0).2 false) 0 dt)).bind
        (fun s => Update kernel (setPhysScene s true) 0 dt)).map
        (fun s => (s.Host.PhysScene, s.SimulatedActors, s.MeshDataToRemove))
      = some (true, [0, 1], [0]) :=
  ⟨rfl, rfl, rfl, rfl, rfl⟩

/-- C5 (fails on the code). Visuals 0 and 1 are admitted and joined; visual 0 is then removed
  by the removal drain of the next step. Afterwards record 0 is destroyed and no longer in
  the simulated set, yet joint 0 is still in `JointActors` and its `Bodies` are still
  `[0, 1]`: `RemoveMeshData` never touches the joint collection. -/
theorem RemoveMeshData_leaves_joint_on_removed_body (kernel : Kernel) (dt : ℚ) :
    (jointed kernel dt).map
        (fun s => (s.SimulatedActors, s.JointActors,
          s.JointActors.map (fun j => (s.jointArena[j]?).map (fun d => d.Bodies))))
      = some ([0, 1], [0], [some [0, 1]]) ∧
    ((jointed kernel dt).bind (fun s =>
        Update kernel (RemoveStaticMeshFromSimulation s 0).2 0 dt)).map
        (fun s => (s.SimulatedActors, s.deletedBodies, s.JointActors,
          s.JointActors.map (fun j => (s.jointArena[j]?).map (fun d => d.Bodies))))
      = some ([1], [0], [0], [some [0, 1]]) :=
  ⟨rfl, rfl⟩

/-- C6 (fails on the code). With visuals 0 and 1 admitted (records 0 and 1) and one recorded
  joint, whose members are records 0 and 1, `RemoveConstraintFromStaticMeshes` for the pair
  (0, 0) queues that joint, although its member pair is not the record of visual 0 twice and
  no recorded joint has that pair; the state changes. `GetDataForJoint` only asks that
  `Bodies` contain each of the two records. -/
theorem RemoveConstraintFromStaticMeshes_same_visual_twice (kernel : Kernel) (dt : ℚ) :
    (jointed kernel dt).map (fun s =>
        (GetDataForStaticMesh s 0,
          s.JointActors.map (fun j => (s.jointArena[j]?).map (fun d => d.Bodies)),
          s.JointsToRemove, s.bDeferRemovalOfBodies,
          (RemoveConstraintFromStaticMeshes s 0 0).1,
          (RemoveConstraintFromStaticMeshes s 0 0).2.JointsToRemove,
          (RemoveConstraintFromStaticMeshes s 0 0).2.bDeferRemovalOfBodies))
      = some (some 0, [some [0, 1]], [], false, false, [0], true) :=
  rfl

end ALocalSimulationVolume

/-- C7. `GetConstraintProfile` returns the profile at position `max 0 Index` when that
  position is inside the profile list and the default profile otherwise; every negative
  index gives the result of index 0. -/
theorem GetConstraintProfile_clamped {P : Type} [Inhabited P] (ConstraintProfiles : List P)
    (Index : Int) (n : Nat) :
    GetConstraintProfile ConstraintProfiles Index =
      (if h : (max 0 Index).toNat < ConstraintProfiles.length then
        ConstraintProfiles.get ⟨(max 0 Index).toNat, h⟩
      else default) ∧
    GetConstraintProfile ConstraintProfiles (Int.negSucc n) =
      GetConstraintProfile ConstraintProfiles 0 := by
  constructor
  · unfold GetConstraintProfile
    simp only []
    have hiff := @Int.toNat_lt ConstraintProfiles.length (max 0 Index) (le_max_left 0 Index)
    by_cases h : (max 0 Index).toNat < ConstraintProfiles.length
    · rw [if_pos (hiff.mp h), dif_pos h, List.getD_eq_getElem _ _ h]
      rfl
    · rw [if_neg (fun hc => h (hiff.mpr hc)), dif_neg h]
  · have hmax : max 0 (Int.negSucc n) = 0 := max_eq_left (le_of_lt (Int.negSucc_lt_zero n))
    unfold GetConstraintProfile
    simp only [hmax, max_self]

namespace ALocalSimulationVolume

open Scenario

/-- C9 (fails on the code). A visual classified Kinematic at drain time (movable, not
  simulating physics) is admitted with `InBodyType = Dynamic` in its record, the value the
  constructor call in `AddStaticMeshToSimulation` put there: `AddMeshData` computes
  `typeOfAdd` and never stores it. The removal drain therefore takes the Dynamic branch and
  enables physics on the host. A visual classified Static likewise ends, after admission and
  removal, movable and simulating physics instead of static. -/
theorem AddMeshData_keeps_constructor_body_type (kernel : Kernel) (dt : ℚ) :
    typeOfAdd kinematicMesh = .Kinematic ∧
    (Update kernel (AddStaticMeshToSimulation (volume true) 2 false).2 0 dt).map
        (fun s => (s.SimulatedActors,
          (s.bodyArena[0]?).map (fun d => (d.InVisualMesh, d.InBodyType)), s.KinematicBodies))
      = some ([0], some (2, .Dynamic), 1) ∧
    ((Update kernel (AddStaticMeshToSimulation (volume true) 2 false).2 0 dt).bind (fun s =>
        Update kernel (RemoveStaticMeshFromSimulation s 2).2 0 dt)).map
        (fun s => (s.SimulatedActors,
          (s.Host.Meshes[2]?).map (fun c => (c.Mobility, c.bSimulatePhysics))))
      = some ([], some (.Movable, true)) ∧
    typeOfAdd staticMesh = .Static ∧
    (Update kernel (AddStaticMeshToSimulation (volume true) 3 false).2 0 dt).map
        (fun s => (s.SimulatedActors,
          (s.bodyArena[0]?).map (fun d => (d.InVisualMesh, d.InBodyType)), s.StaticBodies))
      = some ([0], some (3, .Dynamic), 1) ∧
    ((Update kernel (AddStaticMeshToSimulation (volume true) 3 false).2 0 dt).bind (fun s =>
        Update kernel (RemoveStaticMeshFromSimulation s 3).2 0 dt)).map
        (fun s => (s.SimulatedActors,
          (s.Host.Meshes[3]?).map (fun c => (c.Mobility, c.bSimulatePhysics))))
      = some ([], some (.Movable, true)) :=
  ⟨rfl, rfl, rfl, rfl, rfl, rfl⟩

/-- C10 (fails on the code). With the physics scene available and the queue holding a good
  entry (visual 0, with a clone) followed by an entry whose visual has no rigid-body
  descriptor (visual 4), `AddMeshData` admits the first and returns at the second without
  reaching `MeshDataToAdd.Empty()`: the queue is still `[0, 1]`. After one more request the
  next drain admits record 0 a second time. -/
theorem AddMeshData_early_return_keeps_queue :
    (AddMeshData
        (AddStaticMeshToSimulation (AddStaticMeshToSimulation (volume true) 0 true).2 4
          false).2).map
        (fun s => (s.Host.PhysScene, s.MeshDataToAdd, s.SimulatedActors))
      = some (true, [0, 1], [0]) ∧
    ((DeferredAddition
        (AddStaticMeshToSimulation (AddStaticMeshToSimulation (volume true) 0 true).2 4
          false).2).bind
        (fun s => DeferredAddition (AddStaticMeshToSimulation s 1 false).2)).map
        (fun s => (s.MeshDataToAdd, s.SimulatedActors, s.LocalSimulation.ActorHandles))
      = some ([0, 1, 2], [0, 0], [0, 1]) :=
  ⟨rfl, rfl⟩

/-- Whatever is already pending, `RemoveConstraintFromStaticMeshes` appends the joint it
  finds: there is no test against `JointsToRemove`. -/
theorem RemoveConstraintFromStaticMeshes_appends (s : ALocalSimulationVolume)
    (MeshOne MeshTwo j : Nat) (h : GetDataForJoint s MeshOne MeshTwo = some j) :
    (RemoveConstraintFromStaticMeshes s MeshOne MeshTwo).2.JointsToRemove =
      s.JointsToRemove ++ [j] := by
  unfold RemoveConstraintFromStaticMeshes
  rw [h]

/-- C11 (fails on the code). With visuals 0 and 1 admitted and joined (joint record 0) and
  nothing pending, `RemoveConstraintFromStaticMeshes` for the pair (0, 1) queues joint 0; a
  second call before the drain, for (0, 1) or for (1, 0), is not rejected and queues joint 0
  again, so `JointsToRemove` is `[0, 0]`. The joint drain of the next step then releases
  joint record 0 twice (`deletedJoints = [0, 0]`, `JointBodies` lowered twice), and the
  destroyed record is still listed in `JointActors`. -/
theorem RemoveConstraintFromStaticMeshes_twice_before_drain (kernel : Kernel) (dt : ℚ) :
    (jointedVolume.JointActors, jointedVolume.JointsToRemove, jointedVolume.deletedJoints,
      jointedVolume.JointBodies) = ([0], [], [], 0) ∧
    (RemoveConstraintFromStaticMeshes jointedVolume 0 1).2.JointsToRemove = [0] ∧
    (RemoveConstraintFromStaticMeshes
      (RemoveConstraintFromStaticMeshes jointedVolume 0 1).2 0 1).2.JointsToRemove = [0, 0] ∧
    (RemoveConstraintFromStaticMeshes
      (RemoveConstraintFromStaticMeshes jointedVolume 0 1).2 1 0).2.JointsToRemove = [0, 0] ∧
    (Update kernel
        (RemoveConstraintFromStaticMeshes
          (RemoveConstraintFromStaticMeshes jointedVolume 0 1).2 0 1).2 0 dt).map
        (fun s => (s.JointsToRemove, s.deletedJoints, s.JointBodies, s.JointActors))
      = some ([], [0, 0], -2, [0]) :=
  ⟨rfl, rfl, rfl, rfl, rfl⟩

end ALocalSimulationVolume

end LocalSimulation
